import Mathlib

/-!
# Verification of the Job-Flow scraper core

A shallow embedding, in Lean 4, of the discovery-and-extraction engine of the
Job-Flow repository (Indeed adapter): the multi-source field resolver
(`scraper/adapters/indeed/extraction/json_ld.py`, `utils.py`, `mosaic.py`,
`salary.py`), the bot-challenge classifier and the discovery frontier
(`scraper/adapters/indeed/discovery.py`), the retry combinator
(`scraper/core/rate_limit.py`), and the detail-page batch executor
(`scraper/adapters/indeed/scraping.py`).

Conventions used throughout:
* Python functions become pure Lean functions; externally-supplied behaviour
  (DOM query results, `json.loads`, `re.search`) is passed in as explicit
  data or function parameters.
* Fallible operations return `Option`/`Except`; an exception caught by a
  `try/except` in the source becomes an explicit alternative of the
  corresponding sum type.
* Python sets are modelled as lists with membership; dicts as association
  lists (`List (String × Json)`).
-/

/-- Model of a Python/JSON value as produced by `json.loads`.  Numbers are
modelled as integers (no claim in this development depends on non-integral
numeric payloads). -/
inductive Json where
  | null
  | bool (b : Bool)
  | num (n : Int)
  | str (s : String)
  | arr (xs : List Json)
  | obj (fields : List (String × Json))
  deriving Inhabited

/-- Python truthiness of a JSON value (`if data ...`): `None`, `False`, `0`,
`""`, `[]` and `{}` are falsy, everything else is truthy. -/
def Json.truthy : Json → Bool
  | .null => false
  | .bool b => b
  | .num n => n != 0
  | .str s => s != ""
  | .arr xs => !xs.isEmpty
  | .obj fs => !fs.isEmpty

/-- Key lookup in a JSON object rendered as an association list
(`data.get(key)` / `data[key]` on a parsed dict). -/
def Json.lookup (fs : List (String × Json)) (key : String) : Option Json :=
  (fs.find? (fun p => p.1 == key)).map (·.2)

mutual

/-- Python `str()` of a JSON value, as used in f-string interpolation. -/
def Json.pyStr : Json → String
  | .null => "None"
  | .bool b => if b then "True" else "False"
  | .num n => toString n
  | .str s => s
  | .arr xs => "[" ++ String.intercalate ", " (Json.pyReprList xs) ++ "]"
  | .obj fs => "\x7b" ++ String.intercalate ", " (Json.pyReprFields fs) ++ "\x7d"
termination_by j => (sizeOf j, 0)

/-- Python `repr()` of a JSON value (strings quoted), used inside container
`str()` output. -/
def Json.pyRepr : Json → String
  | .str s => "\x27" ++ s ++ "\x27"
  | v => Json.pyStr v
termination_by j => (sizeOf j, 1)

/-- Helper: `repr()` of each element of a JSON array. -/
def Json.pyReprList : List Json → List String
  | [] => []
  | x :: xs => Json.pyRepr x :: Json.pyReprList xs
termination_by l => (sizeOf l, 0)

/-- Helper: `repr()` of each key/value pair of a JSON object. -/
def Json.pyReprFields : List (String × Json) → List String
  | [] => []
  | (k, v) :: fs =>
      ("\x27" ++ k ++ "\x27: " ++ Json.pyRepr v) :: Json.pyReprFields fs
termination_by l => (sizeOf l, 0)

end

/-- Whether the first character list is a prefix of the second. -/
def leadsWith : List Char → List Char → Bool
  | [], _ => true
  | _ :: _, [] => false
  | c :: cs, d :: ds => c == d && leadsWith cs ds

/-- Python substring test `needle in hay` (the empty needle is always
contained). -/
def containsChars (needle : List Char) : List Char → Bool
  | [] => needle.isEmpty
  | d :: ds => leadsWith needle (d :: ds) || containsChars needle ds

/-- Python `needle in hay` on strings. -/
def pyContains (hay needle : String) : Bool :=
  containsChars needle.data hay.data

/-- Python `str.startswith(pre)`. -/
def pyStartsWith (s pre : String) : Bool :=
  leadsWith pre.data s.data

/-- Python `str.strip()`: remove leading and trailing whitespace. -/
def pyStrip (s : String) : String :=
  String.mk
    (((s.data.dropWhile Char.isWhitespace).reverse.dropWhile Char.isWhitespace).reverse)

/-- Python `str.lower()` (ASCII behaviour). -/
def pyLower (s : String) : String :=
  String.mk (s.data.map Char.toLower)

/-- Split a character list on a separator character (`str.split(sep)`),
keeping empty pieces. -/
def splitOnChar (sep : Char) : List Char → List (List Char)
  | [] => [[]]
  | c :: cs =>
    let r := splitOnChar sep cs
    if c == sep then [] :: r
    else
      match r with
      | [] => [[c]]
      | h :: t => (c :: h) :: t

/-- The characters strictly before the first occurrence of `sep`. -/
def charsBefore (sep : Char) : List Char → List Char
  | [] => []
  | c :: cs => if c == sep then [] else c :: charsBefore sep cs

/-- The characters strictly after the first occurrence of `sep`, when any. -/
def charsAfterFirst (sep : Char) : List Char → Option (List Char)
  | [] => none
  | c :: cs => if c == sep then some cs else charsAfterFirst sep cs

/-- Python `str.title()` (ASCII behaviour): a letter is uppercased when the
preceding character is not a letter, lowercased otherwise. -/
def pyTitle (s : String) : String :=
  String.mk
    (((s.data.foldl
      (fun (acc : List Char × Bool) c =>
        ((if acc.2 then c.toLower else c.toUpper) :: acc.1, c.isAlpha))
      ([], false)).1).reverse)

/-- Python `str.strip(", ")`: remove every leading and trailing `,` or space. -/
def pyStripCommaSpace (s : String) : String :=
  let isStripped : Char → Bool := fun c => c == ',' || c == ' '
  String.mk ((s.data.dropWhile isStripped).reverse.dropWhile isStripped |>.reverse)

/-- The query component of a URL, as `urllib.parse.urlparse(url).query`
extracts it: the fragment (everything from the first `#`) is removed first,
then the query is everything after the first `?` of what remains. -/
def urlQuery (url : String) : String :=
  match charsAfterFirst '?' (charsBefore '#' url.data) with
  | none => ""
  | some rest => String.mk rest

/-- First value bound to `key` by `urllib.parse.parse_qs(query)`: fields are
split on `&`, a field without `=` or with an empty value is dropped
(`keep_blank_values=False`), the value is everything after the first `=`.
Percent-decoding is not modelled (the job keys this program handles contain no
escapes). -/
def parse_qs_first (query key : String) : Option String :=
  ((splitOnChar '&' query.data).filterMap
    (fun field =>
      match charsAfterFirst '=' field with
      | none => none
      | some v =>
          if String.mk (charsBefore '=' field) == key && v.isEmpty = false then
            some (String.mk v)
          else none)).head?

/-- Result of one DOM locator query against a loaded page, combining
`page.locator(sel).count()` and `locator.first.inner_text()`:
`absent` = zero matches, `text s` = at least one match with inner text `s`,
`fail` = the driver raised while querying. -/
inductive LocatorResult where
  | absent
  | text (s : String)
  | fail
  deriving Repr, DecidableEq

instance {ε α : Type} [DecidableEq ε] [DecidableEq α] :
    DecidableEq (Except ε α) := fun a b =>
  match a, b with
  | .error e, .error f => decidable_of_iff (e = f) (by simp)
  | .error _, .ok _ => isFalse (by simp)
  | .ok _, .error _ => isFalse (by simp)
  | .ok a, .ok b => decidable_of_iff (a = b) (by simp)

/-!
## Selector and keyword constants (`scraper/adapters/indeed/selectors.py`)
-/

def JOB_CARDS_CONTAINER_SELECTOR : String := "#mosaic-provider-jobcards"

def CAPTCHA_SELECTORS : List String :=
  [ "iframe[src*=\"hcaptcha\"]",
    "iframe[src*=\"recaptcha\"]",
    "div[class*=\"captcha\"]",
    "div[id*=\"captcha\"]",
    "#px-captcha",
    ".g-recaptcha" ]

def BLOCKING_KEYWORDS : List String :=
  [ "security check",
    "verify you\x27re human",
    "access denied",
    "blocked" ]

def TITLE_SELECTORS : List String :=
  [ "h2[data-testid*=\"jobsearch-JobInfoHeader-title\"] span",
    "h1[class*=\"jobsearch-JobInfoHeader-title\"]",
    "h2.jobsearch-JobInfoHeader-title span" ]

def COMPANY_SELECTORS : List String :=
  [ "div[data-company-name]",
    "a[data-tn-element=\"companyName\"]",
    "span[class*=\"companyName\"] a",
    "div.jobsearch-InlineCompanyRating div" ]

def LOCATION_DETAIL_SELECTORS : List String :=
  [ "div[data-testid*=\"location\"]",
    "div[class*=\"jobsearch-JobInfoHeader-subtitle\"] div",
    "div.jobsearch-JobInfoHeader-subtitle div" ]

def DESCRIPTION_SELECTOR : String := "div#jobDescriptionText"

def DESCRIPTION_SELECTOR_ALT : String := "#jobDescriptionText"

def JSON_LD_SELECTOR : String := "script[type=\"application/ld+json\"]"

/-- `selectors.py` `MOSAIC_PATTERN` regex source (braces written as escapes). -/
def MOSAIC_PATTERN : String :=
  "window\\.mosaic\\.providerData\\[\"mosaic-provider-jobcards\"\\]\\s*=\\s*(\x7b.*?\x7d);"

def SALARY_PATTERNS : List String :=
  [ "[$₹€£¥]\\s*[\\d,]+(?:\\.\\d\x7b2\x7d)?\\s*-\\s*[$₹€£¥]\\s*[\\d,]+(?:\\.\\d\x7b2\x7d)?",
    "[\\d,]+(?:\\.\\d\x7b2\x7d)?\\s*-\\s*[\\d,]+(?:\\.\\d\x7b2\x7d)?\\s*(?:per|/)\\s*(?:month|year|hour)" ]

/-- `config.py`: pagination ceiling. -/
def MAX_PAGES : Nat := 5

/-!
## Field resolution (`utils.py`, `extraction/json_ld.py`)

A detail page's DOM is modelled as a function from selector strings to
`LocatorResult`.
-/

/-- The selector normalisation done at the top of `safe_extract`: a bare
XPath selector (`//...`) gets an `xpath=` prefix. -/
def normSelector (sel : String) : String :=
  if pyStartsWith sel "//" then "xpath=" ++ sel else sel

/-- `utils.safe_extract`: try the selectors in order and return the first
non-empty stripped inner text; a selector whose query raises, matches nothing
or yields only whitespace is skipped; if every selector is exhausted return
the sentinel `"Unknown <Field>"`. -/
def safe_extract (dom : String → LocatorResult) (selectors : List String)
    (field_name : String) : String :=
  match selectors with
  | [] => "Unknown " ++ pyTitle field_name
  | sel :: rest =>
    match dom (normSelector sel) with
    | .text t => if pyStrip t == "" then safe_extract dom rest field_name else pyStrip t
    | _ => safe_extract dom rest field_name

/-- `utils.extract_json_from_script`: `re.search` is modelled by its result
(`searchResult` = group 1 of the match, when any), `json.loads` by
`parse`; a parse failure is caught and becomes `none`. -/
def extract_json_from_script (parse : String → Option Json)
    (searchResult : Option String) : Option Json :=
  match searchResult with
  | none => none
  | some jsonStr => parse jsonStr

/-- `json_ld.extract_json_ld`: scan the page's `application/ld+json` script
bodies in order and return the fields of the first one that parses to a dict
whose `@type` is `"JobPosting"`; scripts that fail to parse or are not a
JobPosting are skipped; if none qualifies the result is `none`. -/
def extract_json_ld (parse : String → Option Json) (scripts : List String) :
    Option (List (String × Json)) :=
  match scripts with
  | [] => none
  | s :: rest =>
    match parse s with
    | some (.obj fs) =>
        match Json.lookup fs "@type" with
        | some (.str t) =>
            if t == "JobPosting" then some fs else extract_json_ld parse rest
        | _ => extract_json_ld parse rest
    | _ => extract_json_ld parse rest

/-- `json_ld.extract_title`: if the JSON-LD payload is truthy (non-empty
dict) and has a `"title"` key, return that value unchanged; otherwise fall
back to the DOM selector chain. -/
def extract_title (dom : String → LocatorResult)
    (json_ld : Option (List (String × Json))) : Json :=
  match json_ld with
  | some fs =>
    if !fs.isEmpty then
      match Json.lookup fs "title" with
      | some v => v
      | none => .str (safe_extract dom TITLE_SELECTORS "title")
    else .str (safe_extract dom TITLE_SELECTORS "title")
  | none => .str (safe_extract dom TITLE_SELECTORS "title")

/-- `json_ld.extract_company`: `hiringOrganization.name` from the payload when
present (the organization must itself be a dict), else the DOM chain. -/
def extract_company (dom : String → LocatorResult)
    (json_ld : Option (List (String × Json))) : Json :=
  match json_ld with
  | some fs =>
    if !fs.isEmpty then
      match Json.lookup fs "hiringOrganization" with
      | some (.obj org) =>
        match Json.lookup org "name" with
        | some v => v
        | none => .str (safe_extract dom COMPANY_SELECTORS "company")
      | some _ => .str (safe_extract dom COMPANY_SELECTORS "company")
      | none => .str (safe_extract dom COMPANY_SELECTORS "company")
    else .str (safe_extract dom COMPANY_SELECTORS "company")
  | none => .str (safe_extract dom COMPANY_SELECTORS "company")

/-- `json_ld.extract_location`: format `jobLocation.address` as
`"city, region"` stripped of stray comma/space when the nesting is present,
else the DOM chain. -/
def extract_location (dom : String → LocatorResult)
    (json_ld : Option (List (String × Json))) : String :=
  match json_ld with
  | some fs =>
    if !fs.isEmpty then
      match Json.lookup fs "jobLocation" with
      | some (.obj loc) =>
        match Json.lookup loc "address" with
        | some (.obj addr) =>
          let city := (Json.lookup addr "addressLocality").getD (.str "")
          let region := (Json.lookup addr "addressRegion").getD (.str "")
          pyStripCommaSpace (city.pyStr ++ ", " ++ region.pyStr)
        | some _ => safe_extract dom LOCATION_DETAIL_SELECTORS "location"
        | none => safe_extract dom LOCATION_DETAIL_SELECTORS "location"
      | some _ => safe_extract dom LOCATION_DETAIL_SELECTORS "location"
      | none => safe_extract dom LOCATION_DETAIL_SELECTORS "location"
    else safe_extract dom LOCATION_DETAIL_SELECTORS "location"
  | none => safe_extract dom LOCATION_DETAIL_SELECTORS "location"

/-- `json_ld.extract_description`: payload `description` when present, else
the `div#jobDescriptionText` locator, else `""` (a locator fault also yields
`""`). -/
def extract_description (dom : String → LocatorResult)
    (json_ld : Option (List (String × Json))) : Json :=
  match json_ld with
  | some fs =>
    if !fs.isEmpty then
      match Json.lookup fs "description" with
      | some v => v
      | none =>
        match dom DESCRIPTION_SELECTOR with
        | .text t => .str t
        | _ => .str ""
    else
      match dom DESCRIPTION_SELECTOR with
      | .text t => .str t
      | _ => .str ""
  | none =>
    match dom DESCRIPTION_SELECTOR with
    | .text t => .str t
    | _ => .str ""

/-- `salary.extract_salary`: a structured `baseSalary.value` dict with truthy
`minValue` and `maxValue` wins and is formatted as
`"{currency}{min} - {currency}{max}"`; otherwise the salary regexes are run
over the page HTML (modelled by `regexSearch pattern html`, the whole-match
text when any) and the first match wins; a fault while reading the page HTML
is swallowed; with no source the result is `none`. -/
def extract_salary (regexSearch : String → String → Option String)
    (html : Except Unit String) (json_ld : Option (List (String × Json))) :
    Option String :=
  let structured : Option String :=
    match json_ld with
    | some fs =>
      if !fs.isEmpty then
        match Json.lookup fs "baseSalary" with
        | some (.obj sal) =>
          match (Json.lookup sal "value").getD (.obj []) with
          | .obj val =>
            let minV := (Json.lookup val "minValue").getD .null
            let maxV := (Json.lookup val "maxValue").getD .null
            let currency := (Json.lookup val "currency").getD (.str "")
            if minV.truthy && maxV.truthy then
              some (currency.pyStr ++ minV.pyStr ++ " - " ++
                    currency.pyStr ++ maxV.pyStr)
            else none
          | _ => none
        | _ => none
      else none
    | none => none
  match structured with
  | some s => some s
  | none =>
    match html with
    | .error _ => none
    | .ok text =>
      (SALARY_PATTERNS.filterMap (fun pat => regexSearch pat text)).head?

/-- `mosaic.extract_mosaic_data`: pull the mosaic provider JSON out of the
page HTML and drill into `metaData.mosaicProviderJobCardsModel.results`.
Every failure mode of the source — no regex match, JSON that does not parse,
a payload that is not a (non-empty) dict, missing nesting, or a dynamic-type
error (`in`/indexing/`.get` on a non-dict, caught by the blanket `except`) —
produces the empty list.  The successful branch returns the raw `results`
value, as the Python does. -/
def extract_mosaic_data (regexSearch : String → String → Option String)
    (parse : String → Option Json) (html : String) : Json :=
  match extract_json_from_script parse (regexSearch MOSAIC_PATTERN html) with
  | none => .arr []
  | some data =>
    match data with
    | .obj fs =>
      if fs.isEmpty then .arr []
      else
        match Json.lookup fs "metaData" with
        | some (.obj md) =>
          match Json.lookup md "mosaicProviderJobCardsModel" with
          | some (.obj model) => (Json.lookup model "results").getD (.arr [])
          | some _ => .arr []
          | none => .arr []
        | some _ => .arr []
        | none => .arr []
    | _ => .arr []

/-!
## Canonical Job record (`scraper/core/models.py`)

`Job` is a plain dataclass with no validation; fields that the Python code
can populate with raw JSON-LD values are typed `Json` here.  `title` and
`id` are `String` because every constructor call site first checks
`title.startswith("Unknown")` (which would raise on a non-string, landing in
the caller's exception handler) and derives `id` from `parse_qs`.
-/

structure Job where
  id : String
  title : String
  company : Json
  location : String
  description : Json
  source : String
  url : String
  salary : Option String
  posted_at : Option Json

/-- A loaded job detail page, as the extractors observe it: DOM locator
outcomes, the inner texts of the `application/ld+json` scripts, and the raw
page HTML (`page.content()`, which may itself fail). -/
structure DetailPage where
  dom : String → LocatorResult
  ldScripts : List String
  html : Except Unit String

/-- `job_id` derivation used by `extract_job_from_page` and `scrape_job`:
`parse_qs(urlparse(url).query).get("jk", ["unknown"])[0]`. -/
def job_id_from_url (url : String) : String :=
  (parse_qs_first (urlQuery url) "jk").getD "unknown"

/-- `scraping.extract_job_from_page`: resolve every field of an
already-loaded detail page, then reject the record (returning `None`) when
the resolved title carries the `Unknown` sentinel or the job id could not be
derived from the URL's `jk` parameter.  A non-string JSON-LD title makes
`title.startswith` raise `AttributeError`, which the function's blanket
`except` turns into `None` as well. -/
def extract_job_from_page (parse : String → Option Json)
    (regexSearch : String → String → Option String) (p : DetailPage)
    (url : String) : Option Job :=
  let job_id := job_id_from_url url
  let json_ld := extract_json_ld parse p.ldScripts
  let titleJ := extract_title p.dom json_ld
  let company := extract_company p.dom json_ld
  let location := extract_location p.dom json_ld
  let salary := extract_salary regexSearch p.html json_ld
  let description : Json :=
    match p.dom DESCRIPTION_SELECTOR_ALT with
    | .text t => .str t
    | .fail => .str ""
    | .absent =>
      match json_ld with
      | some fs =>
        if !fs.isEmpty then
          match Json.lookup fs "description" with
          | some v => v
          | none => .str ""
        else .str ""
      | none => .str ""
  let posted_at : Option Json :=
    match json_ld with
    | some fs => if !fs.isEmpty then Json.lookup fs "datePosted" else none
    | none => none
  match titleJ with
  | .str title =>
    if pyStartsWith title "Unknown" || job_id == "unknown" then none
    else
      some { id := job_id, title := title, company := company,
             location := location, description := description,
             source := "indeed", url := url, salary := salary,
             posted_at := posted_at }
  | _ => none

/-!
## Bot-challenge classifier (`discovery.detect_bot_challenge`)

The page surface it consumes: per-selector element counts (which may fault)
and the page HTML (which may fault).
-/

structure BotCheckPage where
  count : String → Except Unit Nat
  content : Except Unit String

/-- The classifier's first phase: walk the captcha-widget selectors in order,
returning `true` at the first one matching at least one element; a faulting
count query aborts the walk with the fault. -/
def firstTriggered (count : String → Except Unit Nat) :
    List String → Except Unit Bool
  | [] => .ok false
  | s :: rest =>
    match count s with
    | .error e => .error e
    | .ok n => if n > 0 then .ok true else firstTriggered count rest

/-- `discovery.detect_bot_challenge`: `true` when a captcha widget is present,
or when the job-cards container is absent and the lowercased page HTML
contains a blocking keyword; any internal fault yields `false`. -/
def detect_bot_challenge (p : BotCheckPage) : Bool :=
  match firstTriggered p.count CAPTCHA_SELECTORS with
  | .error _ => false
  | .ok true => true
  | .ok false =>
    match p.count JOB_CARDS_CONTAINER_SELECTOR with
    | .error _ => false
    | .ok n =>
      if n > 0 then false
      else
        match p.content with
        | .error _ => false
        | .ok html =>
          BLOCKING_KEYWORDS.any (fun kw => pyContains (pyLower html) kw)

/-!
## Retry combinator (`core/rate_limit.with_retry`)

The wrapped coroutine is modelled as a function from the attempt index to an
outcome; `random.uniform(0, 0.5*delay)` is modelled by an explicit `jitter`
function.  Exceptions are split into the class the combinator retries
(`PlaywrightError` / `asyncio.TimeoutError`) and everything else.
-/

inductive PyErr where
  | retryable (msg : String)
  | nonRetryable (msg : String)
  deriving Repr, DecidableEq

/-- The `while True` loop of the wrapper.  `budget` is the structural fuel
`max_retries - retries`, so `budget = 0` is exactly the guard
`retries >= max_retries` under which the last failure is re-raised.  The
second component collects the sleeps performed before each retry, in order. -/
def retryLoop {T : Type} (op : Nat → Except PyErr T) (base maxDelay : ℚ)
    (jitter : Nat → ℚ) : Nat → Nat → Except PyErr T × List ℚ
  | budget, retries =>
    match op retries with
    | .ok v => (.ok v, [])
    | .error (.nonRetryable m) => (.error (.nonRetryable m), [])
    | .error (.retryable m) =>
      match budget with
      | 0 => (.error (.retryable m), [])
      | b + 1 =>
        let delay := min (base * 2 ^ retries) maxDelay
        let sleepTime := delay + jitter retries
        let rest := retryLoop op base maxDelay jitter b (retries + 1)
        (rest.1, sleepTime :: rest.2)

/-- `with_retry(max_retries, base_delay, max_delay)` applied to an operation:
run attempts starting at `retries = 0`, sleeping
`min(base·2^retries, max_delay) + jitter retries` before each retry. -/
def with_retry {T : Type} (max_retries : Nat) (base maxDelay : ℚ)
    (jitter : Nat → ℚ) (op : Nat → Except PyErr T) : Except PyErr T × List ℚ :=
  retryLoop op base maxDelay jitter max_retries 0

/-!
## Detail-page scraping (`scraping.scrape_job` and `scrape_jobs_batch`)
-/

/-- The distinct failures `scrape_job` can raise: a navigation fault
(a `PlaywrightError`, re-raised through the combinator's retryable class), the
plain `Exception("Bot detection triggered")`, and the plain
`Exception("Missing critical job fields")`. -/
inductive ScrapeErr where
  | nav (msg : String)
  | botDetected
  | missingFields
  deriving Repr, DecidableEq

/-- One prospective detail-page fetch as `scrape_job` sees it: whether
`page.goto` succeeds, the surface the bot classifier reads, and the loaded
page content for the extractors. -/
structure ScrapeTarget where
  navOk : Bool
  bot : BotCheckPage
  page : DetailPage

/-- `scraping.scrape_job` (body inside the limiter): navigate, classify,
extract, validate; the `finally` closes the page exactly once on every path
(second component = number of `page.close()` invocations). -/
def scrape_job (parse : String → Option Json)
    (regexSearch : String → String → Option String) (t : ScrapeTarget)
    (url : String) : Except ScrapeErr Job × Nat :=
  if !t.navOk then (.error (.nav "goto failed"), 1)
  else if detect_bot_challenge t.bot then (.error .botDetected, 1)
  else
    let json_ld := extract_json_ld parse t.page.ldScripts
    let titleJ := extract_title t.page.dom json_ld
    let company := extract_company t.page.dom json_ld
    let location := extract_location t.page.dom json_ld
    let description := extract_description t.page.dom json_ld
    let salary := extract_salary regexSearch t.page.html json_ld
    let posted_at : Option Json :=
      match json_ld with
      | some fs => if !fs.isEmpty then Json.lookup fs "datePosted" else none
      | none => none
    let job_id := job_id_from_url url
    match titleJ with
    | .str title =>
      if pyStartsWith title "Unknown" || job_id == "unknown" then
        (.error .missingFields, 1)
      else
        (.ok { id := job_id, title := title, company := company,
               location := location, description := description,
               source := "indeed", url := url, salary := salary,
               posted_at := posted_at }, 1)
    | _ => (.error .missingFields, 1)

/-- How the retry combinator classifies each `scrape_job` failure:
`page.goto` raises `PlaywrightError` (caught and retried by `with_retry`),
while the bot-detection and missing-fields failures are plain `Exception`s,
which fall into the combinator's non-retryable branch. -/
def classifyScrapeErr : ScrapeErr → PyErr
  | .nav m => .retryable m
  | .botDetected => .nonRetryable "Bot detection triggered"
  | .missingFields => .nonRetryable "Missing critical job fields"

/-- The composition `@with_retry() async def scrape_job(...)`: attempt `k`
runs `scrape_job` against the page state `targets k`. -/
def scrape_job_with_retry (parse : String → Option Json)
    (regexSearch : String → String → Option String)
    (targets : Nat → ScrapeTarget) (url : String) (max_retries : Nat)
    (base maxDelay : ℚ) (jitter : Nat → ℚ) : Except PyErr Job × List ℚ :=
  with_retry max_retries base maxDelay jitter
    (fun k => (scrape_job parse regexSearch (targets k) url).1.mapError
      classifyScrapeErr)

/-- One entry of the URL list handed to the batch executor, together with the
environment's response: whether `context.new_page()` succeeds, the surface
the bot classifier reads, and the loaded page for extraction.  The
navigation loop of the source only logs a `goto` failure — the page stays in
the batch and the failure is observable solely through the page state — so
it needs no separate field. -/
structure BatchTarget where
  url : String
  openOk : Bool
  bot : BotCheckPage
  page : DetailPage

/-- Recursion core of the batch partition; `fuel` is an upper bound on the
list length, so recursion is structural (the fuel never runs out when the
chunk size is positive). -/
def chunkListGo {α : Type} (size : Nat) : Nat → List α → List (List α)
  | _, [] => []
  | 0, _ :: _ => []
  | fuel + 1, x :: xs =>
      ((x :: xs).take size) :: chunkListGo size fuel ((x :: xs).drop size)

/-- The batch partition induced by `range(0, total, max_concurrent)`:
consecutive runs of `size` targets, the tail batch possibly shorter.
`size = 0` (on which Python's `range` raises `ValueError`) is mapped to the
empty partition; every theorem below assumes a positive size. -/
def chunkList {α : Type} (size : Nat) (l : List α) : List (List α) :=
  if size = 0 then [] else chunkListGo size l.length l

/-- `scraping.scrape_jobs_batch`: clamp concurrency to 1 when a ScrapeOps
key is configured, then process the URL list in strictly sequential batches;
within a batch, open all pages (a failed open drops the page), navigate all
(failures only logged), then for each page run the bot classifier and the
extractor.  A detected challenge closes the page explicitly *and* the
`finally` closes it again (2 close invocations); every other path closes it
exactly once via `finally`.  Returns the accumulated jobs and, per opened
page, `(url, number of page.close() invocations)`. -/
def scrape_jobs_batch (parse : String → Option Json)
    (regexSearch : String → String → Option String) (scrapeops : Bool)
    (targets : List BatchTarget) (max_concurrent : Nat) :
    List Job × List (String × Nat) :=
  let mc := if scrapeops && max_concurrent > 1 then 1 else max_concurrent
  (chunkList mc targets).foldl
    (fun acc batch =>
      let opened := batch.filter (·.openOk)
      opened.foldl
        (fun acc t =>
          if detect_bot_challenge t.bot then
            (acc.1, acc.2 ++ [(t.url, 2)])
          else
            match extract_job_from_page parse regexSearch t.page t.url with
            | some j => (acc.1 ++ [j], acc.2 ++ [(t.url, 1)])
            | none => (acc.1, acc.2 ++ [(t.url, 1)]))
        acc)
    ([], [])

/-!
## Discovery frontier (`discovery.discover_jobs` / `extract_jobs_by_clicking`)
-/

/-- The record appended to `jobs_data` for each newly clicked job card. -/
structure JobData where
  jobkey : String
  title : String
  description : String
  deriving Repr, DecidableEq

/-- One job card of a results page, as the click-driven extractor observes
it.  Each per-card driver fault (attribute read, click, description wait)
lands in a `continue` in the source, so each is modelled by the outcome of
the corresponding step: `jk` is the `data-jk` attribute (`none` when absent
or unreadable), `titleFound` whether some title selector matched,
`titleText` the title's `text_content()`, `clickOk` whether the click
succeeded, `descOk`/`descText` the outcome of waiting for and reading
`#jobDescriptionText`. -/
structure Card where
  jk : Option String
  titleFound : Bool
  titleText : Option String
  clickOk : Bool
  descOk : Bool
  descText : String

/-- The body of the card loop of `extract_jobs_by_clicking`, acting on the
state `(seen_jks, jobs_data, new_jobs_count)`: skip the card when its job key
is missing, empty or already seen, or when any step fails; otherwise append
the record, add the key to the seen set and bump the counter. -/
def processCard (st : List String × List JobData × Nat) (c : Card) :
    List String × List JobData × Nat :=
  let (seen, jobs, cnt) := st
  match c.jk with
  | none => (seen, jobs, cnt)
  | some jk =>
    if jk == "" || seen.contains jk then (seen, jobs, cnt)
    else if !c.titleFound then (seen, jobs, cnt)
    else if !c.clickOk then (seen, jobs, cnt)
    else if !c.descOk then (seen, jobs, cnt)
    else
      let title :=
        match c.titleText with
        | some s => if s != "" then pyStrip s else ""
        | none => ""
      let description := if c.descText != "" then pyStrip c.descText else ""
      (jk :: seen, jobs ++ [⟨jk, title, description⟩], cnt + 1)

/-- `discovery.extract_jobs_by_clicking`: fold the card loop over the page's
cards, returning the updated seen set and jobs list together with the number
of new jobs found on this page. -/
def extract_jobs_by_clicking (seen : List String) (jobs : List JobData)
    (cards : List Card) : List String × List JobData × Nat :=
  cards.foldl processCard (seen, jobs, 0)

/-- One results page fetch, as `discover_jobs` observes it: the bot
classifier's verdict and the job cards the page carries after scrolling. -/
structure SerpPage where
  blocked : Bool
  cards : List Card

inductive StopReason where
  | blocked
  | converged
  | exhausted
  deriving Repr, DecidableEq

/-- Trace entry for one iteration of the pagination loop: the zero-based
page index fetched, the bot classifier's verdict there, and the number of
new job keys the extraction pass found. -/
structure PageVisit where
  idx : Nat
  blocked : Bool
  newCount : Nat
  deriving Repr, DecidableEq

structure DiscoveryResult where
  jobs_data : List JobData
  seen : List String
  visits : List PageVisit
  reason : StopReason

/-- The `while page_num < MAX_PAGES` loop of `discover_jobs`.  `remaining`
is the structural fuel `MAX_PAGES - page_num`, so `remaining = 0` is exactly
the loop guard failing (`Stopped(exhausted)`).  Each iteration fetches page
`pageNum`, breaks on a positive bot-challenge verdict, runs the click-driven
extraction, and breaks when it found no new job key; every terminal case
returns the accumulated `jobs_data`. -/
def discoverLoop (getPage : Nat → SerpPage) :
    Nat → Nat → List String → List JobData → DiscoveryResult
  | 0, _, seen, jobs => ⟨jobs, seen, [], .exhausted⟩
  | r + 1, pageNum, seen, jobs =>
    let p := getPage pageNum
    if p.blocked then
      ⟨jobs, seen, [⟨pageNum, true, 0⟩], .blocked⟩
    else
      let e := extract_jobs_by_clicking seen jobs p.cards
      let v : PageVisit := ⟨pageNum, false, e.2.2⟩
      if e.2.2 = 0 then
        ⟨e.2.1, e.1, [v], .converged⟩
      else
        let rest := discoverLoop getPage r (pageNum + 1) e.1 e.2.1
        ⟨rest.jobs_data, rest.seen, v :: rest.visits, rest.reason⟩

/-- `discovery.discover_jobs` for one session: start at page 0 with the
caller's seen-key set and an empty `jobs_data`, bounded by `MAX_PAGES`. -/
def discover_jobs (getPage : Nat → SerpPage) (seen_jks : List String) :
    DiscoveryResult :=
  discoverLoop getPage MAX_PAGES 0 seen_jks []

/-- Reference accumulator: run the click-driven extraction over the given
page indices in order, threading the seen set and jobs list.  Used to state
that every terminal case of discovery returns exactly the candidates
accumulated over the successfully extracted pages. -/
def replayPages (getPage : Nat → SerpPage) :
    List Nat → List String → List JobData → List String × List JobData
  | [], seen, jobs => (seen, jobs)
  | i :: rest, seen, jobs =>
    let e := extract_jobs_by_clicking seen jobs (getPage i).cards
    replayPages getPage rest e.1 e.2.1

/-!
## Concrete instances used by witnesses and counterexamples
-/

/-- A `json.loads` model that fails on every input. -/
def parseNone : String → Option Json := fun _ => none

/-- A `re.search` model that matches nothing. -/
def searchNone : String → String → Option String := fun _ _ => none

/-- A detail page with an empty DOM, no structured payloads and empty HTML. -/
def emptyDetailPage : DetailPage :=
  { dom := fun _ => .absent, ldScripts := [], html := .ok "" }

/-- A detail page whose first title selector yields a job title. -/
def titledDetailPage : DetailPage :=
  { dom := fun s =>
      if s == "h2[data-testid*=\"jobsearch-JobInfoHeader-title\"] span" then
        .text "Engineer"
      else .absent,
    ldScripts := [], html := .ok "" }

/-- A benign results page: no captcha widgets, job-cards container present. -/
def benignBotPage : BotCheckPage :=
  { count := fun s => if s == JOB_CARDS_CONTAINER_SELECTOR then .ok 1 else .ok 0,
    content := .ok "" }

/-- A challenge page: the hCaptcha iframe selector matches one element. -/
def blockedBotPage : BotCheckPage :=
  { count := fun s => if s == "iframe[src*=\"hcaptcha\"]" then .ok 1 else .ok 0,
    content := .ok "" }

/-- A detail-page fetch that navigates fine but hits a challenge page. -/
def blockedScrapeTarget : ScrapeTarget :=
  { navOk := true, bot := blockedBotPage, page := emptyDetailPage }

/-- A batch entry that opens fine, is not blocked, and extracts a job. -/
def okBatchTarget : BatchTarget :=
  { url := "https://www.indeed.com/viewjob?jk=ok1", openOk := true,
    bot := benignBotPage, page := titledDetailPage }

/-- A batch entry that opens fine but hits a challenge page. -/
def blockedBatchTarget : BatchTarget :=
  { url := "https://www.indeed.com/viewjob?jk=bad1", openOk := true,
    bot := blockedBotPage, page := titledDetailPage }

/-- Twelve detail targets for the batch-shape witness (batches of 5, 5, 2
at concurrency 5); the seventh — in the second batch — hits a challenge
page, every other one extracts successfully. -/
def batchTargets12 : List BatchTarget :=
  [ okBatchTarget, okBatchTarget, okBatchTarget, okBatchTarget, okBatchTarget,
    okBatchTarget, blockedBatchTarget, okBatchTarget, okBatchTarget,
    okBatchTarget, okBatchTarget, okBatchTarget ]

/-- A results-page card that the click-driven extractor fully processes:
job key `jk1`, a readable title, a click that works and a description that
loads. -/
def freshCard : Card :=
  { jk := some "jk1", titleFound := true, titleText := some "Title",
    clickOk := true, descOk := true, descText := "desc" }

/-- A discovery environment whose every page carries the same single card:
page 0 yields one new key, page 1 yields none, so the session converges
after the second page. -/
def convergeEnv : Nat → SerpPage := fun _ => { blocked := false, cards := [freshCard] }

/-- The DOM used by the C2 witness: every locator yields a different title,
so structured precedence is observable. -/
def domOtherTitle : String → LocatorResult := fun _ => .text "Other Title"

/-- The DOM used by the C2 witness for the fallback chain: selector `L1`
yields empty text, selector `L2` yields a title. -/
def domTwoSelectors : String → LocatorResult := fun s =>
  if s == "L2" then .text "Backend Engineer" else .text ""

/-- Whether a parsed value is a dict whose `@type` is `"JobPosting"` — the
acceptance test of `extract_json_ld`. -/
def isJobPostingObj : Json → Bool
  | .obj fs =>
    match Json.lookup fs "@type" with
    | some (.str t) => t == "JobPosting"
    | _ => false
  | _ => false

/-- The relation between consecutive pagination-trace entries: a further page
is fetched only after an unblocked page that produced at least one new job
key, and it is the immediately following page index. -/
def visitStep (a b : PageVisit) : Prop :=
  a.blocked = false ∧ a.newCount ≠ 0 ∧ b.idx = a.idx + 1

/-!
## Helper lemmas: field resolution
-/

/-- `safe_extract` returns the trimmed text of the first selector whose
query yields non-empty trimmed text, provided all earlier selectors yield
nothing usable. -/
theorem safe_extract_first_nonempty
    (dom : String → LocatorResult) (pre : List String) (sel : String)
    (rest : List String) (t : String) (field : String)
    (hpre : ∀ s ∈ pre, ∀ u, dom (normSelector s) = .text u → pyStrip u = "")
    (hsel : dom (normSelector sel) = .text t) (ht : pyStrip t ≠ "") :
    safe_extract dom (pre ++ sel :: rest) field = pyStrip t := by
  induction pre with
  | nil =>
    simp only [List.nil_append, safe_extract, hsel]
    simp [ht]
  | cons s pre ih =>
    have hs := hpre s (by simp)
    have hrest : ∀ s ∈ pre, ∀ u, dom (normSelector s) = .text u → pyStrip u = "" :=
      fun s hsm => hpre s (by simp [hsm])
    simp only [List.cons_append, safe_extract]
    cases hdom : dom (normSelector s) with
    | text u =>
      have := hs u hdom
      simp [this, ih hrest]
    | absent => simp [ih hrest]
    | fail => simp [ih hrest]

/-- A JSON-LD payload containing a `"title"` key short-circuits
`extract_title` to that exact value. -/
theorem extract_title_structured
    (dom : String → LocatorResult) (fs : List (String × Json)) (v : Json)
    (h : Json.lookup fs "title" = some v) :
    extract_title dom (some fs) = v := by
  have hne : fs.isEmpty = false := by
    cases fs with
    | nil => simp [Json.lookup] at h
    | cons p l => rfl
  simp [extract_title, hne, h]

/-!
## Helper lemmas: bot-challenge classifier
-/

/-- With fault-free counts, the captcha walk computes `List.any`. -/
theorem firstTriggered_ok (cnt : String → Nat) (sels : List String) :
    firstTriggered (fun s => .ok (cnt s)) sels =
      .ok (sels.any (fun s => decide (0 < cnt s))) := by
  induction sels with
  | nil => rfl
  | cons s rest ih =>
    simp only [firstTriggered, List.any_cons]
    by_cases h : 0 < cnt s
    · simp [h]
    · have : cnt s = 0 := by omega
      simp [this, ih]

/-- If every captcha count succeeds with zero, the walk yields `false`. -/
theorem firstTriggered_zero (count : String → Except Unit Nat)
    (sels : List String) (h : ∀ s ∈ sels, count s = .ok 0) :
    firstTriggered count sels = .ok false := by
  induction sels with
  | nil => rfl
  | cons s rest ih =>
    have hs : count s = .ok 0 := h s (by simp)
    simp only [firstTriggered, hs]
    exact ih (fun s hsm => h s (by simp [hsm]))

/-!
## Claim C2: structured precedence and first-non-empty DOM fallback
-/

/-- C2: field resolution gives the structured payload unconditional
precedence over DOM locators — a JSON-LD payload with a `"title"` key makes
`extract_title` return exactly that value, whatever any DOM locator would
yield.  With no payload, and equally with a payload that has no `"title"`
key (including the empty payload, which Python's truthiness test sends down
the same path), `extract_title` falls through to the DOM selector chain,
and that chain returns the trimmed text of the first selector whose element
text is non-empty after trimming. -/
theorem C2_title_resolution_precedence :
    (∀ (dom dom' : String → LocatorResult) (fs : List (String × Json)) (v : Json),
        Json.lookup fs "title" = some v →
        extract_title dom (some fs) = v ∧ extract_title dom' (some fs) = v) ∧
    (∀ (dom : String → LocatorResult) (pre : List String) (sel : String)
        (rest : List String) (t : String) (field : String),
        (∀ s ∈ pre, ∀ u, dom (normSelector s) = .text u → pyStrip u = "") →
        dom (normSelector sel) = .text t → pyStrip t ≠ "" →
        safe_extract dom (pre ++ sel :: rest) field = pyStrip t) ∧
    (∀ dom : String → LocatorResult,
        extract_title dom none = .str (safe_extract dom TITLE_SELECTORS "title")) ∧
    (∀ (dom : String → LocatorResult) (fs : List (String × Json)),
        Json.lookup fs "title" = none →
        extract_title dom (some fs) =
          .str (safe_extract dom TITLE_SELECTORS "title")) := by
  refine ⟨?_, ?_, ?_, ?_⟩
  · intro dom dom' fs v h
    exact ⟨extract_title_structured dom fs v h, extract_title_structured dom' fs v h⟩
  · intro dom pre sel rest t field hpre hsel ht
    exact safe_extract_first_nonempty dom pre sel rest t field hpre hsel ht
  · intro dom
    rfl
  · intro dom fs h
    cases hfe : fs.isEmpty
    · simp [extract_title, hfe, h]
    · simp [extract_title, hfe]

/-- Witness for C2 at the spec's concrete inputs: payload
`{"title": "Data Engineer"}` beats a DOM that would yield `"Other Title"`;
with no payload the chain `[L1 ↦ "", L2 ↦ "Backend Engineer"]` yields
`"Backend Engineer"`; and a JobPosting payload without a `"title"` key falls
through to the DOM chain, which resolves the first title selector's text. -/
theorem C2_title_resolution_precedence_witness :
    extract_title domOtherTitle (some [("title", Json.str "Data Engineer")]) =
      Json.str "Data Engineer" ∧
    safe_extract domTwoSelectors (["L1"] ++ "L2" :: []) "title" = "Backend Engineer" ∧
    extract_title titledDetailPage.dom (some [("@type", Json.str "JobPosting")]) =
      Json.str "Engineer" := by
  refine ⟨?_, ?_, ?_⟩
  · exact (C2_title_resolution_precedence.1 domOtherTitle domOtherTitle
      [("title", Json.str "Data Engineer")] (Json.str "Data Engineer") rfl).1
  · have h := C2_title_resolution_precedence.2.1 domTwoSelectors ["L1"] "L2" []
      "Backend Engineer" "title"
      (by
        intro s hs u hu
        simp only [List.mem_singleton] at hs
        subst hs
        have : domTwoSelectors (normSelector "L1") = .text "" := by rfl
        rw [this] at hu
        cases hu
        rfl)
      (by rfl) (by decide)
    exact h.trans (by decide)
  · have h := C2_title_resolution_precedence.2.2.2 titledDetailPage.dom
      [("@type", Json.str "JobPosting")] rfl
    exact h.trans (by rfl)

/-!
## Claim C7: bot-challenge classifier
-/

/-- C7: with fault-free queries the classifier returns `true` exactly when
some captcha-widget selector matches, or the results container is absent and
the lowercased page HTML contains a blocking keyword; a page with no widget
matches and a present container classifies `false` whatever the page text
(or even a faulting HTML read); and each query fault point yields `false`
rather than an exception. -/
theorem C7_bot_challenge_classification :
    (∀ (cnt : String → Nat) (html : String),
        detect_bot_challenge ⟨fun s => .ok (cnt s), .ok html⟩ = true ↔
          ((∃ s ∈ CAPTCHA_SELECTORS, 0 < cnt s) ∨
            (cnt JOB_CARDS_CONTAINER_SELECTOR = 0 ∧
              ∃ kw ∈ BLOCKING_KEYWORDS, pyContains (pyLower html) kw = true))) ∧
    (∀ (count : String → Except Unit Nat) (content : Except Unit String) (n : Nat),
        (∀ s ∈ CAPTCHA_SELECTORS, count s = .ok 0) →
        count JOB_CARDS_CONTAINER_SELECTOR = .ok n → 0 < n →
        detect_bot_challenge ⟨count, content⟩ = false) ∧
    (∀ (count : String → Except Unit Nat) (content : Except Unit String),
        count "iframe[src*=\"hcaptcha\"]" = .error () →
        detect_bot_challenge ⟨count, content⟩ = false) ∧
    (∀ (count : String → Except Unit Nat) (content : Except Unit String),
        (∀ s ∈ CAPTCHA_SELECTORS, count s = .ok 0) →
        count JOB_CARDS_CONTAINER_SELECTOR = .error () →
        detect_bot_challenge ⟨count, content⟩ = false) ∧
    (∀ count : String → Except Unit Nat,
        (∀ s ∈ CAPTCHA_SELECTORS, count s = .ok 0) →
        count JOB_CARDS_CONTAINER_SELECTOR = .ok 0 →
        detect_bot_challenge ⟨count, .error ()⟩ = false) := by
  refine ⟨?_, ?_, ?_, ?_, ?_⟩
  · intro cnt html
    simp only [detect_bot_challenge, firstTriggered_ok]
    by_cases hany : CAPTCHA_SELECTORS.any (fun s => decide (0 < cnt s)) = true
    · simp only [hany]
      simp only [List.any_eq_true, decide_eq_true_eq] at hany
      simp [hany]
    · simp only [Bool.not_eq_true] at hany
      simp only [hany]
      have hnone : ¬ ∃ s ∈ CAPTCHA_SELECTORS, 0 < cnt s := by
        simpa [List.any_eq_true] using hany
      by_cases hjobs : 0 < cnt JOB_CARDS_CONTAINER_SELECTOR
      · simp [hjobs, hnone]
        omega
      · have hz : cnt JOB_CARDS_CONTAINER_SELECTOR = 0 := by omega
        simp [hz, hnone, List.any_eq_true]
  · intro count content n hcaptcha hjobs hn
    simp [detect_bot_challenge, firstTriggered_zero count _ hcaptcha, hjobs, hn]
  · intro count content herr
    simp [detect_bot_challenge, firstTriggered, CAPTCHA_SELECTORS, herr]
  · intro count content hcaptcha herr
    simp [detect_bot_challenge, firstTriggered_zero count _ hcaptcha, herr]
  · intro count hcaptcha hjobs
    simp [detect_bot_challenge, firstTriggered_zero count _ hcaptcha, hjobs]

/-- Witness for C7: a concrete page with a present job-cards container and
no captcha widgets is classified `false` (conjunct 2 at `benignBotPage`),
and the faulting variants also evaluate to `false`. -/
theorem C7_bot_challenge_classification_witness :
    detect_bot_challenge ⟨benignBotPage.count, benignBotPage.content⟩ = false ∧
    detect_bot_challenge ⟨fun _ => .error (), .ok ""⟩ = false ∧
    detect_bot_challenge ⟨fun s =>
      if s == JOB_CARDS_CONTAINER_SELECTOR then .error () else .ok 0, .ok ""⟩ = false ∧
    detect_bot_challenge ⟨fun _ => .ok 0, .error ()⟩ = false := by
  refine ⟨?_, ?_, ?_, ?_⟩
  · exact C7_bot_challenge_classification.2.1 benignBotPage.count benignBotPage.content
      1 (by decide) (by rfl) (by decide)
  · exact C7_bot_challenge_classification.2.2.1 _ (.ok "") rfl
  · exact C7_bot_challenge_classification.2.2.2.1 _ (.ok "") (by decide) (by rfl)
  · exact C7_bot_challenge_classification.2.2.2.2 _ (by decide) (by rfl)

/-!
## Claim C10: malformed structured payloads degrade to the absent value
-/

/-- C10: when embedded structured data exists but is malformed, the
structured-payload extractors return the absent value instead of raising —
`extract_json_from_script` returns `none` on unparseable JSON exactly as on a
missing script; `extract_json_ld` returns `none` when every script is
unparseable or not a JobPosting object; `extract_mosaic_data` returns the
empty list when the mosaic JSON does not match, does not parse, or lacks the
expected nesting — so a caller cannot distinguish a malformed payload from a
missing one. -/
theorem C10_malformed_payload_fallthrough :
    (∀ (parse : String → Option Json) (s : String),
        parse s = none →
        extract_json_from_script parse (some s) = none ∧
        extract_json_from_script parse none = none) ∧
    (∀ (parse : String → Option Json) (scripts : List String),
        (∀ s ∈ scripts, ∀ d, parse s = some d → isJobPostingObj d = false) →
        extract_json_ld parse scripts = none ∧
        extract_json_ld parse [] = none) ∧
    (∀ (regexSearch : String → String → Option String)
        (parse : String → Option Json) (html : String),
        regexSearch MOSAIC_PATTERN html = none →
        extract_mosaic_data regexSearch parse html = .arr []) ∧
    (∀ (regexSearch : String → String → Option String)
        (parse : String → Option Json) (html s : String),
        regexSearch MOSAIC_PATTERN html = some s → parse s = none →
        extract_mosaic_data regexSearch parse html = .arr []) ∧
    (∀ (regexSearch : String → String → Option String)
        (parse : String → Option Json) (html s : String)
        (fs : List (String × Json)),
        regexSearch MOSAIC_PATTERN html = some s → parse s = some (.obj fs) →
        Json.lookup fs "metaData" = none →
        extract_mosaic_data regexSearch parse html = .arr []) := by
  refine ⟨?_, ?_, ?_, ?_, ?_⟩
  · intro parse s h
    exact ⟨by simp [extract_json_from_script, h], rfl⟩
  · intro parse scripts h
    refine ⟨?_, rfl⟩
    induction scripts with
    | nil => rfl
    | cons s rest ih =>
      have hrest := ih (fun s hs d hd => h s (by simp [hs]) d hd)
      simp only [extract_json_ld]
      cases hp : parse s with
      | none => exact hrest
      | some d =>
        have hd := h s (by simp) d hp
        cases d with
        | obj fs =>
          simp only [isJobPostingObj] at hd
          cases ht : Json.lookup fs "@type" with
          | none => simpa [ht] using hrest
          | some v =>
            cases v with
            | str t =>
              rw [ht] at hd
              have hne : t ≠ "JobPosting" := by simpa using hd
              simpa [ht, hne] using hrest
            | null => simpa [ht] using hrest
            | bool b => simpa [ht] using hrest
            | num n => simpa [ht] using hrest
            | arr xs => simpa [ht] using hrest
            | obj fs2 => simpa [ht] using hrest
        | null => exact hrest
        | bool b => exact hrest
        | num n => exact hrest
        | str t => exact hrest
        | arr xs => exact hrest
  · intro regexSearch parse html h
    simp [extract_mosaic_data, extract_json_from_script, h]
  · intro regexSearch parse html s h hp
    simp [extract_mosaic_data, extract_json_from_script, h, hp]
  · intro regexSearch parse html s fs h hp hmd
    have hne : fs.isEmpty = false ∨ fs.isEmpty = true := by
      cases fs.isEmpty
      · exact Or.inl rfl
      · exact Or.inr rfl
    cases hne with
    | inl hne => simp [extract_mosaic_data, extract_json_from_script, h, hp, hne, hmd]
    | inr hne => simp [extract_mosaic_data, extract_json_from_script, h, hp, hne]

/-- Witness for C10 at concrete inputs: a parser that rejects everything, a
script list whose entries never parse to a JobPosting, and a mosaic regex
that matches text which fails to parse, all yield the absent value. -/
theorem C10_malformed_payload_fallthrough_witness :
    extract_json_from_script parseNone (some "not json") = none ∧
    extract_json_ld parseNone ["not json", "also not json"] = none ∧
    extract_mosaic_data searchNone parseNone "<html></html>" = .arr [] ∧
    extract_mosaic_data (fun _ _ => some "oops") parseNone "x" = .arr [] ∧
    extract_mosaic_data (fun _ _ => some "d")
      (fun s => if s == "d" then some (.obj [("other", .num 1)]) else none)
      "x" = .arr [] := by
  refine ⟨?_, ?_, ?_, ?_, ?_⟩
  · exact (C10_malformed_payload_fallthrough.1 parseNone "not json" rfl).1
  · exact (C10_malformed_payload_fallthrough.2.1 parseNone
      ["not json", "also not json"] (fun s hs d hd => by simp [parseNone] at hd)).1
  · exact C10_malformed_payload_fallthrough.2.2.1 searchNone parseNone
      "<html></html>" rfl
  · exact C10_malformed_payload_fallthrough.2.2.2.1 (fun _ _ => some "oops")
      parseNone "x" "oops" rfl rfl
  · exact C10_malformed_payload_fallthrough.2.2.2.2 (fun _ _ => some "d")
      (fun s => if s == "d" then some (.obj [("other", .num 1)]) else none)
      "x" "d" [("other", .num 1)] rfl (by rfl) (by rfl)

/-!
## Helper lemmas: retry combinator
-/

/-- An attempt that succeeds ends the loop at once, with no sleeps. -/
theorem retryLoop_ok {T : Type} (op : Nat → Except PyErr T)
    (base maxDelay : ℚ) (jitter : Nat → ℚ) (budget retries : Nat) (v : T)
    (h : op retries = .ok v) :
    retryLoop op base maxDelay jitter budget retries = (.ok v, []) := by
  cases budget <;> simp [retryLoop, h]

/-- An attempt that fails with a retryable error while budget remains sleeps
once and continues with the next attempt. -/
theorem retryLoop_retry_succ {T : Type} (op : Nat → Except PyErr T)
    (base maxDelay : ℚ) (jitter : Nat → ℚ) (b retries : Nat) (m : String)
    (h : op retries = .error (.retryable m)) :
    retryLoop op base maxDelay jitter (b + 1) retries =
      ((retryLoop op base maxDelay jitter b (retries + 1)).1,
        (min (base * 2 ^ retries) maxDelay + jitter retries) ::
          (retryLoop op base maxDelay jitter b (retries + 1)).2) := by
  conv_lhs => rw [retryLoop]
  simp [h]

/-- The sleep performed before retry number `i` (counting from the loop's
current `retries`) is exactly the capped exponential delay plus that
retry's jitter. -/
theorem retryLoop_sleep_getD {T : Type} (op : Nat → Except PyErr T)
    (base maxDelay : ℚ) (jitter : Nat → ℚ) :
    ∀ (budget retries i : Nat),
      i < (retryLoop op base maxDelay jitter budget retries).2.length →
      (retryLoop op base maxDelay jitter budget retries).2.getD i 0 =
        min (base * 2 ^ (retries + i)) maxDelay + jitter (retries + i) := by
  intro budget
  induction budget with
  | zero =>
    intro retries i h
    cases hop : op retries with
    | ok v => simp [retryLoop, hop] at h
    | error e =>
      cases e with
      | retryable m => simp [retryLoop, hop] at h
      | nonRetryable m => simp [retryLoop, hop] at h
  | succ b ih =>
    intro retries i h
    cases hop : op retries with
    | ok v => simp [retryLoop, hop] at h
    | error e =>
      cases e with
      | nonRetryable m => simp [retryLoop, hop] at h
      | retryable m =>
        rw [retryLoop_retry_succ op base maxDelay jitter b retries m hop] at h ⊢
        cases i with
        | zero => simp
        | succ i =>
          simp only [List.getD_cons_succ]
          simp only [List.length_cons, Nat.succ_lt_succ_iff] at h
          rw [ih (retries + 1) i h]
          have : retries + 1 + i = retries + (i + 1) := by omega
          rw [this]

/-- When every attempt up to the budget fails with a retryable error, the
loop re-raises the last failure after consuming the whole budget (one sleep
per retry). -/
theorem retryLoop_exhaust {T : Type} (op : Nat → Except PyErr T)
    (base maxDelay : ℚ) (jitter : Nat → ℚ) (m : Nat → String) :
    ∀ (budget retries : Nat),
      (∀ k, retries ≤ k → k ≤ retries + budget →
        op k = .error (.retryable (m k))) →
      (retryLoop op base maxDelay jitter budget retries).1 =
          .error (.retryable (m (retries + budget))) ∧
        (retryLoop op base maxDelay jitter budget retries).2.length = budget := by
  intro budget
  induction budget with
  | zero =>
    intro retries h
    have hop := h retries (Nat.le_refl _) (Nat.le_refl _)
    simp [retryLoop, hop]
  | succ b ih =>
    intro retries h
    have hop := h retries (Nat.le_refl _) (by omega)
    have hrest := ih (retries + 1)
      (fun k hk1 hk2 => h k (by omega) (by omega))
    rw [retryLoop_retry_succ op base maxDelay jitter b retries (m retries) hop]
    have : retries + 1 + b = retries + (b + 1) := by omega
    rw [this] at hrest
    exact ⟨hrest.1, by simp [hrest.2]⟩

/-!
## Claim C4: retry with exponential backoff and jitter
-/

/-- C4: (a) an operation that fails with a transport-class error on its
first two attempts and succeeds on the third, under `max_retries = 3`,
returns the success value; (b) assuming the jitter of retry `k` lies in
`[0, 0.5·min(base·2^k, max_delay)]` (the range of `random.uniform`), every
sleep lies between the backoff floor `min(base·2^k, max_delay)` and 1.5
times it; (c) when all `max_retries + 1` attempts fail with transport-class
errors — the `max_retries` consumed by retries plus the last one — the last
failure propagates after exactly `max_retries` sleeps. -/
theorem C4_retry_backoff_and_exhaustion :
    (∀ (T : Type) (op : Nat → Except PyErr T) (base maxDelay : ℚ)
        (jitter : Nat → ℚ) (v : T) (m0 m1 : String),
        op 0 = .error (.retryable m0) → op 1 = .error (.retryable m1) →
        op 2 = .ok v →
        (with_retry 3 base maxDelay jitter op).1 = .ok v) ∧
    (∀ (T : Type) (op : Nat → Except PyErr T) (max_retries : Nat)
        (base maxDelay : ℚ) (jitter : Nat → ℚ),
        (∀ k, 0 ≤ jitter k ∧ jitter k ≤ min (base * 2 ^ k) maxDelay / 2) →
        ∀ i, i < (with_retry max_retries base maxDelay jitter op).2.length →
          min (base * 2 ^ i) maxDelay ≤
              (with_retry max_retries base maxDelay jitter op).2.getD i 0 ∧
            (with_retry max_retries base maxDelay jitter op).2.getD i 0 ≤
              3 / 2 * min (base * 2 ^ i) maxDelay) ∧
    (∀ (T : Type) (op : Nat → Except PyErr T) (max_retries : Nat)
        (base maxDelay : ℚ) (jitter : Nat → ℚ) (m : Nat → String),
        (∀ k, k ≤ max_retries → op k = .error (.retryable (m k))) →
        (with_retry max_retries base maxDelay jitter op).1 =
            .error (.retryable (m max_retries)) ∧
          (with_retry max_retries base maxDelay jitter op).2.length =
            max_retries) := by
  refine ⟨?_, ?_, ?_⟩
  · intro T op base maxDelay jitter v m0 m1 h0 h1 h2
    show (retryLoop op base maxDelay jitter (2 + 1) 0).1 = .ok v
    rw [retryLoop_retry_succ op base maxDelay jitter 2 0 m0 h0]
    show (retryLoop op base maxDelay jitter (1 + 1) 1).1 = .ok v
    rw [retryLoop_retry_succ op base maxDelay jitter 1 1 m1 h1]
    show (retryLoop op base maxDelay jitter (0 + 1) 2).1 = .ok v
    rw [retryLoop_ok op base maxDelay jitter (0 + 1) 2 v h2]
  · intro T op max_retries base maxDelay jitter hj i h
    have hg := retryLoop_sleep_getD op base maxDelay jitter max_retries 0 i h
    simp only [Nat.zero_add] at hg
    simp only [with_retry] at h ⊢
    rw [hg]
    have h1 := (hj i).1
    have h2 := (hj i).2
    constructor
    · linarith
    · linarith
  · intro T op max_retries base maxDelay jitter m hfail
    have := retryLoop_exhaust op base maxDelay jitter m max_retries 0
      (fun k hk1 hk2 => hfail k (by omega))
    simpa [with_retry] using this

/-- Witness for C4 at concrete inputs: `max_retries = 3`, `base_delay = 5`,
`max_delay = 10`, zero jitter; an operation failing twice then succeeding
returns the success value, the first sleep of an always-failing run lies in
`[5, 7.5]`, and an always-failing run propagates the failure after 3
sleeps. -/
theorem C4_retry_backoff_and_exhaustion_witness :
    (with_retry 3 5 10 (fun _ => 0)
        (fun k => if k < 2 then .error (.retryable "net") else .ok (42 : Nat))).1 =
      .ok 42 ∧
    (min ((5 : ℚ) * 2 ^ 0) 10 ≤
        (with_retry 3 5 10 (fun _ => 0)
          (fun _ => (.error (.retryable "net") : Except PyErr Nat))).2.getD 0 0 ∧
      (with_retry 3 5 10 (fun _ => 0)
          (fun _ => (.error (.retryable "net") : Except PyErr Nat))).2.getD 0 0 ≤
        3 / 2 * min ((5 : ℚ) * 2 ^ 0) 10) ∧
    (with_retry 3 5 10 (fun _ => 0)
        (fun _ => (.error (.retryable "net") : Except PyErr Nat))).1 =
      .error (.retryable "net") ∧
    (with_retry 3 5 10 (fun _ => 0)
        (fun _ => (.error (.retryable "net") : Except PyErr Nat))).2.length = 3 := by
  refine ⟨?_, ?_, ?_, ?_⟩
  · exact C4_retry_backoff_and_exhaustion.1 Nat
      (fun k => if k < 2 then .error (.retryable "net") else .ok 42)
      5 10 (fun _ => 0) 42 "net" "net" rfl rfl rfl
  · exact C4_retry_backoff_and_exhaustion.2.1 Nat
      (fun _ => .error (.retryable "net")) 3 5 10 (fun _ => 0)
      (fun k => ⟨le_refl 0, by positivity⟩) 0
      (by decide)
  · exact (C4_retry_backoff_and_exhaustion.2.2 Nat
      (fun _ => .error (.retryable "net")) 3 5 10 (fun _ => 0)
      (fun _ => "net") (fun k _ => rfl)).1
  · exact (C4_retry_backoff_and_exhaustion.2.2 Nat
      (fun _ => .error (.retryable "net")) 3 5 10 (fun _ => 0)
      (fun _ => "net") (fun k _ => rfl)).2

/-!
## Helper lemmas: batch partition
-/

/-- The partition core ignores the exact fuel as long as it bounds the list
length (and the chunk size is positive). -/
theorem chunkListGo_fuel {α : Type} (size : Nat) (hs : 0 < size) :
    ∀ (f1 f2 : Nat) (l : List α), l.length ≤ f1 → l.length ≤ f2 →
      chunkListGo size f1 l = chunkListGo size f2 l := by
  intro f1
  induction f1 with
  | zero =>
    intro f2 l h1 _
    have hl : l = [] := List.length_eq_zero.mp (Nat.le_zero.mp h1)
    subst hl
    cases f2 <;> rfl
  | succ f ih =>
    intro f2 l h1 h2
    cases l with
    | nil => cases f2 <;> rfl
    | cons x xs =>
      cases f2 with
      | zero => simp at h2
      | succ f2 =>
        simp only [chunkListGo]
        congr 1
        apply ih
        · simp only [List.length_drop, List.length_cons]
          simp only [List.length_cons] at h1
          omega
        · simp only [List.length_drop, List.length_cons]
          simp only [List.length_cons] at h2
          omega

/-- The empty list has the empty partition. -/
theorem chunkList_nil {α : Type} (size : Nat) :
    chunkList size ([] : List α) = [] := by
  unfold chunkList
  split <;> rfl

/-- Unfolding of the partition on a non-empty list: the first `size`
elements form the head batch, the rest is partitioned recursively. -/
theorem chunkList_cons {α : Type} (size : Nat) (hs : 0 < size) (x : α)
    (xs : List α) :
    chunkList size (x :: xs) =
      ((x :: xs).take size) :: chunkList size ((x :: xs).drop size) := by
  have hsz : ¬ size = 0 := by omega
  simp only [chunkList, hsz, if_false, List.length_cons, chunkListGo]
  congr 1
  apply chunkListGo_fuel size hs
  · simp only [List.length_drop, List.length_cons]
    omega
  · exact Nat.le_refl _

/-- The batches concatenate back to the original list (positive size). -/
theorem chunkList_flatten {α : Type} (size : Nat) (hs : 0 < size) :
    ∀ (n : Nat) (l : List α), l.length ≤ n → (chunkList size l).flatten = l := by
  intro n
  induction n with
  | zero =>
    intro l hl
    have : l = [] := List.length_eq_zero.mp (Nat.le_zero.mp hl)
    subst this
    simp [chunkList_nil]
  | succ n ih =>
    intro l hl
    cases l with
    | nil => simp [chunkList_nil]
    | cons x xs =>
      rw [chunkList_cons size hs]
      simp only [List.flatten_cons]
      rw [ih]
      · exact List.take_append_drop size (x :: xs)
      · simp only [List.length_drop, List.length_cons]
        simp only [List.length_cons] at hl
        omega

/-- The number of batches is `⌈length / size⌉` (positive size). -/
theorem chunkList_length {α : Type} (size : Nat) (hs : 0 < size) :
    ∀ (n : Nat) (l : List α), l.length ≤ n →
      (chunkList size l).length = (l.length + size - 1) / size := by
  intro n
  induction n with
  | zero =>
    intro l hl
    have : l = [] := List.length_eq_zero.mp (Nat.le_zero.mp hl)
    subst this
    simp [chunkList_nil, Nat.div_eq_of_lt (by omega : size - 1 < size)]
  | succ n ih =>
    intro l hl
    cases l with
    | nil => simp [chunkList_nil, Nat.div_eq_of_lt (by omega : size - 1 < size)]
    | cons x xs =>
      rw [chunkList_cons size hs]
      simp only [List.length_cons]
      rw [ih _ (by
        simp only [List.length_drop, List.length_cons]
        simp only [List.length_cons] at hl
        omega)]
      simp only [List.length_drop, List.length_cons]
      have e1 : xs.length + 1 + size - 1 = (xs.length + 1 - 1) + size := by omega
      rw [e1, Nat.add_div_right _ hs]
      rcases le_or_lt size (xs.length + 1) with hls | hls
      · have e2 : xs.length + 1 - size + size - 1 = xs.length + 1 - 1 := by omega
        rw [e2]
      · have e2 : xs.length + 1 - size + size - 1 = size - 1 := by omega
        rw [e2, Nat.div_eq_of_lt (by omega : size - 1 < size),
          Nat.div_eq_of_lt (by omega : xs.length + 1 - 1 < size)]

/-- Every batch is non-empty and no larger than the chunk size. -/
theorem chunkList_mem_length {α : Type} (size : Nat) (hs : 0 < size) :
    ∀ (n : Nat) (l : List α), l.length ≤ n →
      ∀ b ∈ chunkList size l, 0 < b.length ∧ b.length ≤ size := by
  intro n
  induction n with
  | zero =>
    intro l hl b hb
    have : l = [] := List.length_eq_zero.mp (Nat.le_zero.mp hl)
    subst this
    simp [chunkList_nil] at hb
  | succ n ih =>
    intro l hl b hb
    cases l with
    | nil => simp [chunkList_nil] at hb
    | cons x xs =>
      rw [chunkList_cons size hs] at hb
      rcases List.mem_cons.mp hb with hb | hb
      · subst hb
        simp only [List.length_take, List.length_cons]
        omega
      · exact ih ((x :: xs).drop size)
          (by
            simp only [List.length_drop, List.length_cons]
            simp only [List.length_cons] at hl
            omega) b hb

/-- Every batch except possibly the last has exactly the chunk size. -/
theorem chunkList_getD_length {α : Type} (size : Nat) (hs : 0 < size) :
    ∀ (n : Nat) (l : List α), l.length ≤ n → ∀ i : Nat,
      i + 1 < (chunkList size l).length →
      ((chunkList size l).getD i []).length = size := by
  intro n
  induction n with
  | zero =>
    intro l hl i h
    have : l = [] := List.length_eq_zero.mp (Nat.le_zero.mp hl)
    subst this
    simp [chunkList_nil] at h
  | succ n ih =>
    intro l hl i h
    cases l with
    | nil => simp [chunkList_nil] at h
    | cons x xs =>
      rw [chunkList_cons size hs] at h ⊢
      cases i with
      | zero =>
        simp only [List.getD_cons_zero]
        have hne : chunkList size ((x :: xs).drop size) ≠ [] := by
          intro he
          rw [he] at h
          simp at h
        have hdne : (x :: xs).drop size ≠ [] := by
          intro he
          rw [he, chunkList_nil] at hne
          exact hne rfl
        have hlen : size < (x :: xs).length := by
          by_contra hc
          push_neg at hc
          exact hdne (List.drop_eq_nil_of_le hc)
        simp only [List.length_take, List.length_cons]
        simp only [List.length_cons] at hlen
        omega
      | succ i =>
        simp only [List.getD_cons_succ]
        refine ih _ (by
          simp only [List.length_drop, List.length_cons]
          simp only [List.length_cons] at hl
          omega) i (by simpa using h)

/-!
## Helper lemmas: batch executor
-/

/-- The extraction loop of one batch, folded from any accumulator: it
appends exactly the jobs of the unblocked, successfully extracted pages (in
order) and records one close log entry per page — two close invocations on
the detected-challenge path, one otherwise. -/
theorem batch_extract_fold (parse : String → Option Json)
    (regexSearch : String → String → Option String) :
    ∀ (l : List BatchTarget) (acc : List Job × List (String × Nat)),
      l.foldl
        (fun acc t =>
          if detect_bot_challenge t.bot then
            (acc.1, acc.2 ++ [(t.url, 2)])
          else
            match extract_job_from_page parse regexSearch t.page t.url with
            | some j => (acc.1 ++ [j], acc.2 ++ [(t.url, 1)])
            | none => (acc.1, acc.2 ++ [(t.url, 1)])) acc =
      (acc.1 ++ l.filterMap (fun t =>
          if detect_bot_challenge t.bot then none
          else extract_job_from_page parse regexSearch t.page t.url),
        acc.2 ++ l.map (fun t =>
          (t.url, if detect_bot_challenge t.bot then 2 else 1))) := by
  intro l
  induction l with
  | nil => intro acc; simp
  | cons t rest ih =>
    intro acc
    simp only [List.foldl_cons, List.filterMap_cons, List.map_cons]
    by_cases hb : detect_bot_challenge t.bot
    · simp only [hb, if_true, ih]
      simp
    · simp only [hb, if_false]
      cases he : extract_job_from_page parse regexSearch t.page t.url with
      | some j => simp [ih, he]
      | none => simp [ih, he]

/-- Folding batch-wise over a partition, filtering each batch, equals one
fold over the filtered concatenation. -/
theorem foldl_chunks_filter {α β : Type} (p : α → Bool) (step : β → α → β) :
    ∀ (chunks : List (List α)) (acc : β),
      chunks.foldl (fun acc batch => (batch.filter p).foldl step acc) acc =
        ((chunks.flatten.filter p).foldl step acc) := by
  intro chunks
  induction chunks with
  | nil => intro acc; rfl
  | cons c cs ih =>
    intro acc
    simp only [List.foldl_cons, List.flatten_cons, List.filter_append,
      List.foldl_append, ih]

/-- The output of `scrape_jobs_batch` in closed form: jobs are the pointwise
successes of the opened, unblocked, successfully extracted targets, and the
close log records one entry per opened page with close count 2 on the
detected-challenge path and 1 otherwise. -/
theorem scrape_jobs_batch_spec (parse : String → Option Json)
    (regexSearch : String → String → Option String) (scrapeops : Bool)
    (targets : List BatchTarget) (max_concurrent : Nat)
    (hC : 0 < max_concurrent) :
    scrape_jobs_batch parse regexSearch scrapeops targets max_concurrent =
      ((targets.filter (·.openOk)).filterMap (fun t =>
          if detect_bot_challenge t.bot then none
          else extract_job_from_page parse regexSearch t.page t.url),
        (targets.filter (·.openOk)).map (fun t =>
          (t.url, if detect_bot_challenge t.bot then 2 else 1))) := by
  unfold scrape_jobs_batch
  rw [foldl_chunks_filter]
  rw [chunkList_flatten _ (by
    rcases Bool.dichotomy (scrapeops && decide (max_concurrent > 1)) with h | h <;>
      simp [h, hC]) targets.length targets (Nat.le_refl _)]
  rw [batch_extract_fold]
  simp

/-!
## Claim C5: batch partition and per-item failure isolation
-/

/-- C5: with requested concurrency `C > 0` (and no rate-limited relay
configured), the batch executor partitions the `N` targets into
`⌈N / C⌉` consecutive batches — each non-empty, of size `C` except a
possibly smaller final batch, concatenating back to the target list in
order — and the job output is the pointwise image of the targets (an item
that fails to open, hits a challenge, or is rejected by extraction is
skipped by itself, leaving every other item's outcome unchanged). -/
theorem C5_batch_partition_and_isolation (parse : String → Option Json)
    (regexSearch : String → String → Option String)
    (targets : List BatchTarget) (C : Nat) (hC : 0 < C) :
    (scrape_jobs_batch parse regexSearch false targets C).1 =
        (targets.filter (·.openOk)).filterMap (fun t =>
          if detect_bot_challenge t.bot then none
          else extract_job_from_page parse regexSearch t.page t.url) ∧
      (chunkList C targets).length = (targets.length + C - 1) / C ∧
      (chunkList C targets).flatten = targets ∧
      (∀ b ∈ chunkList C targets, 0 < b.length ∧ b.length ≤ C) ∧
      (∀ i : Nat, i + 1 < (chunkList C targets).length →
        ((chunkList C targets).getD i []).length = C) := by
  refine ⟨?_, ?_, ?_, ?_, ?_⟩
  · rw [scrape_jobs_batch_spec parse regexSearch false targets C hC]
  · exact chunkList_length C hC targets.length targets (Nat.le_refl _)
  · exact chunkList_flatten C hC targets.length targets (Nat.le_refl _)
  · exact chunkList_mem_length C hC targets.length targets (Nat.le_refl _)
  · exact chunkList_getD_length C hC targets.length targets (Nat.le_refl _)

/-- Witness for C5 at the spec's concrete input: 12 targets at concurrency
5 form batches of sizes 5, 5, 2, and with one challenge-blocked item in the
second batch the output still contains the 11 other jobs. -/
theorem C5_batch_partition_and_isolation_witness :
    (chunkList 5 batchTargets12).map List.length = [5, 5, 2] ∧
    (scrape_jobs_batch parseNone searchNone false batchTargets12 5).1.length = 11 := by
  constructor
  · rfl
  · rw [(C5_batch_partition_and_isolation parseNone searchNone batchTargets12 5
      (by decide)).1]
    rfl

/-!
## Claim C8: page closing in the batch executor (corrected)
-/

/-- C8 counterexample: the claim "close is invoked exactly once on every
exit path" fails on the detected-challenge path — for a concrete batch with
one opened, challenge-blocked page, the close log records two `page.close()`
invocations (the explicit close before `continue` plus the `finally`). -/
theorem C8_close_twice_counterexample :
    (scrape_jobs_batch parseNone searchNone false [blockedBatchTarget] 1).2 =
        [("https://www.indeed.com/viewjob?jk=bad1", 2)] ∧
      ¬ ∀ e ∈ (scrape_jobs_batch parseNone searchNone false
          [blockedBatchTarget] 1).2, e.2 = 1 := by
  constructor
  · rfl
  · intro hall
    have := hall ("https://www.indeed.com/viewjob?jk=bad1", 2) (by rw [show
      (scrape_jobs_batch parseNone searchNone false [blockedBatchTarget] 1).2 =
        [("https://www.indeed.com/viewjob?jk=bad1", 2)] from rfl]; simp)
    simp at this

/-- C8 amended: every page the batch executor opens is closed at least once
on every exit path of its handling; the close count is exactly one on the
success and extraction-failure paths, and exactly two when a bot challenge
is detected (the explicit close and the `finally` both fire). -/
theorem C8_close_counts_amended (parse : String → Option Json)
    (regexSearch : String → String → Option String) (scrapeops : Bool)
    (targets : List BatchTarget) (C : Nat) (hC : 0 < C) :
    (scrape_jobs_batch parse regexSearch scrapeops targets C).2 =
        (targets.filter (·.openOk)).map (fun t =>
          (t.url, if detect_bot_challenge t.bot then 2 else 1)) ∧
      ∀ e ∈ (scrape_jobs_batch parse regexSearch scrapeops targets C).2,
        1 ≤ e.2 ∧ e.2 ≤ 2 := by
  have hspec := scrape_jobs_batch_spec parse regexSearch scrapeops targets C hC
  constructor
  · rw [hspec]
  · intro e he
    rw [hspec] at he
    simp only [List.mem_map] at he
    obtain ⟨t, _, ht⟩ := he
    subst ht
    by_cases hb : detect_bot_challenge t.bot <;> simp [hb]

/-- Witness for the amended C8: a batch with one benign and one blocked page
closes the benign page once and the blocked page twice. -/
theorem C8_close_counts_amended_witness :
    (scrape_jobs_batch parseNone searchNone false
        [okBatchTarget, blockedBatchTarget] 2).2 =
      [("https://www.indeed.com/viewjob?jk=ok1", 1),
        ("https://www.indeed.com/viewjob?jk=bad1", 2)] := by
  rw [(C8_close_counts_amended parseNone searchNone false
    [okBatchTarget, blockedBatchTarget] 2 (by decide)).1]
  rfl

/-!
## Claim C6: sentinel titles and ids are never emitted
-/

/-- C6: no record emitted by the detail-page extractors carries a sentinel —
a record returned by `extract_job_from_page` or `scrape_job` never has a
title starting with `"Unknown"` nor the id `"unknown"`; conversely a page
whose resolved title carries the sentinel prefix, or a URL from which no
`jk` parameter can be derived, makes `extract_job_from_page` return `None`
and `scrape_job` raise the missing-fields failure. -/
theorem C6_sentinel_rejection :
    (∀ (parse : String → Option Json)
        (regexSearch : String → String → Option String) (p : DetailPage)
        (url : String) (j : Job),
        extract_job_from_page parse regexSearch p url = some j →
        pyStartsWith j.title "Unknown" = false ∧ j.id ≠ "unknown") ∧
    (∀ (parse : String → Option Json)
        (regexSearch : String → String → Option String) (t : ScrapeTarget)
        (url : String) (j : Job),
        (scrape_job parse regexSearch t url).1 = .ok j →
        pyStartsWith j.title "Unknown" = false ∧ j.id ≠ "unknown") ∧
    (∀ (parse : String → Option Json)
        (regexSearch : String → String → Option String) (p : DetailPage)
        (url : String),
        job_id_from_url url = "unknown" →
        extract_job_from_page parse regexSearch p url = none) ∧
    (∀ (parse : String → Option Json)
        (regexSearch : String → String → Option String) (p : DetailPage)
        (url s : String),
        extract_title p.dom (extract_json_ld parse p.ldScripts) = .str s →
        pyStartsWith s "Unknown" = true →
        extract_job_from_page parse regexSearch p url = none) ∧
    (∀ (parse : String → Option Json)
        (regexSearch : String → String → Option String) (t : ScrapeTarget)
        (url : String),
        t.navOk = true → detect_bot_challenge t.bot = false →
        job_id_from_url url = "unknown" →
        (scrape_job parse regexSearch t url).1 = .error .missingFields) := by
  refine ⟨?_, ?_, ?_, ?_, ?_⟩
  · intro parse regexSearch p url j h
    simp only [extract_job_from_page] at h
    split at h
    · next title heq =>
      split at h
      · exact absurd h (by simp)
      · next hcond =>
        simp only [Bool.or_eq_true, not_or] at hcond
        obtain ⟨hc1, hc2⟩ := hcond
        have hj := Option.some.inj h
        subst hj
        refine ⟨by simpa using hc1, ?_⟩
        simpa using hc2
    · exact absurd h (by simp)
  · intro parse regexSearch t url j h
    simp only [scrape_job] at h
    split at h
    · exact absurd h (by simp)
    · split at h
      · exact absurd h (by simp)
      · split at h
        · next title heq =>
          split at h
          · exact absurd h (by simp)
          · next hcond =>
            simp only [Bool.or_eq_true, not_or] at hcond
            obtain ⟨hc1, hc2⟩ := hcond
            have hj := Except.ok.inj h
            subst hj
            refine ⟨by simpa using hc1, ?_⟩
            simpa using hc2
        · exact absurd h (by simp)
  · intro parse regexSearch p url hid
    simp only [extract_job_from_page, hid]
    split
    · simp
    · rfl
  · intro parse regexSearch p url s ht hs
    simp only [extract_job_from_page, ht, hs]
    simp
  · intro parse regexSearch t url hnav hbot hid
    simp only [scrape_job, hnav, hbot, hid, Bool.not_true, Bool.false_eq_true,
      if_false]
    split
    · simp
    · rfl

/-- Witness for C6 at concrete pages: a titled page with a `jk` URL yields a
sentinel-free record (through both extractors); an empty page (sentinel
title) and a URL without `jk` are both rejected. -/
theorem C6_sentinel_rejection_witness :
    (extract_job_from_page parseNone searchNone titledDetailPage
        "https://www.indeed.com/viewjob?jk=ok1" =
      some { id := "ok1", title := "Engineer",
             company := .str "Unknown Company",
             location := "Unknown Location", description := .str "",
             source := "indeed",
             url := "https://www.indeed.com/viewjob?jk=ok1",
             salary := none, posted_at := none }) ∧
    pyStartsWith "Engineer" "Unknown" = false ∧
    ("ok1" : String) ≠ "unknown" ∧
    extract_job_from_page parseNone searchNone emptyDetailPage
      "https://www.indeed.com/viewjob?jk=ok1" = none ∧
    extract_job_from_page parseNone searchNone titledDetailPage
      "https://www.indeed.com/viewjob" = none ∧
    (scrape_job parseNone searchNone
        ⟨true, benignBotPage, titledDetailPage⟩
        "https://www.indeed.com/viewjob").1 = .error .missingFields := by
  have h1 : extract_job_from_page parseNone searchNone titledDetailPage
      "https://www.indeed.com/viewjob?jk=ok1" =
      some { id := "ok1", title := "Engineer",
             company := .str "Unknown Company",
             location := "Unknown Location", description := .str "",
             source := "indeed",
             url := "https://www.indeed.com/viewjob?jk=ok1",
             salary := none, posted_at := none } := rfl
  have hmain := C6_sentinel_rejection
  refine ⟨h1, ?_, ?_, ?_, ?_, ?_⟩
  · exact (hmain.1 parseNone searchNone titledDetailPage
      "https://www.indeed.com/viewjob?jk=ok1" _ h1).1
  · exact (hmain.1 parseNone searchNone titledDetailPage
      "https://www.indeed.com/viewjob?jk=ok1" _ h1).2
  · exact hmain.2.2.2.1 parseNone searchNone emptyDetailPage
      "https://www.indeed.com/viewjob?jk=ok1" "Unknown Title" rfl rfl
  · exact hmain.2.2.1 parseNone searchNone titledDetailPage
      "https://www.indeed.com/viewjob" rfl
  · exact hmain.2.2.2.2 parseNone searchNone
      ⟨true, benignBotPage, titledDetailPage⟩
      "https://www.indeed.com/viewjob" rfl (by rfl) rfl

/-- An attempt that fails outside the retryable class ends the loop at
once: the failure propagates with no sleeps. -/
theorem retryLoop_nonretryable {T : Type} (op : Nat → Except PyErr T)
    (base maxDelay : ℚ) (jitter : Nat → ℚ) (budget retries : Nat) (m : String)
    (h : op retries = .error (.nonRetryable m)) :
    retryLoop op base maxDelay jitter budget retries =
      (.error (.nonRetryable m), []) := by
  cases budget <;> simp [retryLoop, h]

/-!
## Claim C9: detected block versus the retry class (corrected)
-/

/-- C9 counterexample: the claim that a detected-block failure belongs to
the class the retry wrapper retries fails on the code — `scrape_job` raises
a plain `Exception("Bot detection triggered")`, which `with_retry` catches
only in its non-retryable branch: on a concrete always-blocked page, the
composition propagates the failure immediately, performing zero sleeps,
even with `max_retries = 3`. -/
theorem C9_block_not_retried_counterexample :
    classifyScrapeErr ScrapeErr.botDetected =
        .nonRetryable "Bot detection triggered" ∧
      scrape_job_with_retry parseNone searchNone (fun _ => blockedScrapeTarget)
          "https://www.indeed.com/viewjob?jk=a" 3 5 10 (fun _ => 0) =
        (.error (.nonRetryable "Bot detection triggered"), []) := by
  constructor
  · rfl
  · rfl

/-- C9 amended: a detected bot challenge aborts the current page's attempt —
the page is closed exactly once and a failure is raised — but that failure
is a plain `Exception` outside the transport/timeout class `with_retry`
retries, so the enclosing retry wrapper propagates it immediately on the
first occurrence, with no sleeps and no re-attempt. -/
theorem C9_block_aborts_without_retry (parse : String → Option Json)
    (regexSearch : String → String → Option String)
    (targets : Nat → ScrapeTarget) (url : String) (max_retries : Nat)
    (base maxDelay : ℚ) (jitter : Nat → ℚ)
    (hnav : (targets 0).navOk = true)
    (hbot : detect_bot_challenge (targets 0).bot = true) :
    (scrape_job parse regexSearch (targets 0) url).1 = .error .botDetected ∧
      (scrape_job parse regexSearch (targets 0) url).2 = 1 ∧
      scrape_job_with_retry parse regexSearch targets url max_retries base
          maxDelay jitter =
        (.error (.nonRetryable "Bot detection triggered"), []) := by
  have hjob : scrape_job parse regexSearch (targets 0) url =
      (.error .botDetected, 1) := by
    simp [scrape_job, hnav, hbot]
  refine ⟨by rw [hjob], by rw [hjob], ?_⟩
  unfold scrape_job_with_retry with_retry
  exact retryLoop_nonretryable _ base maxDelay jitter max_retries 0
    "Bot detection triggered"
    (by
      show Except.mapError classifyScrapeErr
        (scrape_job parse regexSearch (targets 0) url).1 =
          .error (.nonRetryable "Bot detection triggered")
      rw [hjob]
      rfl)

/-- Witness for the amended C9 at a concrete always-blocked page. -/
theorem C9_block_aborts_without_retry_witness :
    (scrape_job parseNone searchNone blockedScrapeTarget
        "https://www.indeed.com/viewjob?jk=a").1 = .error .botDetected ∧
      (scrape_job parseNone searchNone blockedScrapeTarget
        "https://www.indeed.com/viewjob?jk=a").2 = 1 ∧
      scrape_job_with_retry parseNone searchNone (fun _ => blockedScrapeTarget)
          "https://www.indeed.com/viewjob?jk=a" 3 5 10 (fun _ => 0) =
        (.error (.nonRetryable "Bot detection triggered"), []) :=
  C9_block_aborts_without_retry parseNone searchNone
    (fun _ => blockedScrapeTarget) "https://www.indeed.com/viewjob?jk=a"
    3 5 10 (fun _ => 0) rfl (by rfl)

/-!
## Helper lemmas: discovery frontier
-/

/-- Case analysis of the card-loop body: either the state is unchanged, or
the card carries a fresh non-empty job key and exactly one record with that
key is appended, the key is added to the seen set, and the counter is
bumped. -/
theorem processCard_cases (st : List String × List JobData × Nat) (c : Card) :
    processCard st c = st ∨
      ∃ jk title description, c.jk = some jk ∧ jk ≠ "" ∧ jk ∉ st.1 ∧
        processCard st c =
          (jk :: st.1, st.2.1 ++ [⟨jk, title, description⟩], st.2.2 + 1) := by
  obtain ⟨seen, jobs, cnt⟩ := st
  simp only [processCard]
  cases hjk : c.jk with
  | none => exact Or.inl rfl
  | some jk =>
    dsimp only
    by_cases h1 : (jk == "" || seen.contains jk) = true
    · rw [if_pos h1]
      exact Or.inl rfl
    · rw [if_neg h1]
      simp only [Bool.or_eq_true, beq_iff_eq, List.contains, List.elem_eq_mem,
        decide_eq_true_eq, not_or] at h1
      by_cases h2 : (!c.titleFound) = true
      · rw [if_pos h2]
        exact Or.inl rfl
      · rw [if_neg h2]
        by_cases h3 : (!c.clickOk) = true
        · rw [if_pos h3]
          exact Or.inl rfl
        · rw [if_neg h3]
          by_cases h4 : (!c.descOk) = true
          · rw [if_pos h4]
            exact Or.inl rfl
          · rw [if_neg h4]
            refine Or.inr ⟨jk,
              (match c.titleText with
                | some s => if (s != "") = true then pyStrip s else ""
                | none => ""),
              (if (c.descText != "") = true then pyStrip c.descText else ""),
              rfl, h1.1, h1.2, rfl⟩

/-- Invariant of the whole card loop, from any starting state whose record
keys are unique and contained in the seen set: the final record keys remain
unique and contained in the final seen set, the seen set only grows, and
every record not already present at the start carries a key that was not in
the starting seen set. -/
theorem foldl_processCard_inv :
    ∀ (cards : List Card) (seen : List String) (jobs : List JobData)
      (cnt : Nat),
      (jobs.map JobData.jobkey).Nodup →
      (∀ j ∈ jobs, j.jobkey ∈ seen) →
      (((cards.foldl processCard (seen, jobs, cnt)).2.1.map
          JobData.jobkey).Nodup ∧
        (∀ j ∈ (cards.foldl processCard (seen, jobs, cnt)).2.1,
          j.jobkey ∈ (cards.foldl processCard (seen, jobs, cnt)).1) ∧
        (∀ s ∈ seen, s ∈ (cards.foldl processCard (seen, jobs, cnt)).1) ∧
        (∀ j ∈ (cards.foldl processCard (seen, jobs, cnt)).2.1,
          j ∈ jobs ∨ j.jobkey ∉ seen)) := by
  intro cards
  induction cards with
  | nil =>
    intro seen jobs cnt h1 h2
    exact ⟨h1, h2, fun s hs => hs, fun j hj => Or.inl hj⟩
  | cons c cards ih =>
    intro seen jobs cnt h1 h2
    simp only [List.foldl_cons]
    rcases processCard_cases (seen, jobs, cnt) c with heq | ⟨jk, ti, de, _, hne, hmem, heq⟩
    · rw [heq]
      exact ih seen jobs cnt h1 h2
    · rw [heq]
      have h1' : ((jobs ++ [(⟨jk, ti, de⟩ : JobData)]).map JobData.jobkey).Nodup := by
        rw [List.map_append, List.nodup_append]
        refine ⟨h1, by simp, ?_⟩
        intro a ha hb
        simp only [List.map_cons, List.map_nil, List.mem_singleton] at hb
        subst hb
        simp only [List.mem_map] at ha
        obtain ⟨j, hj, hjk⟩ := ha
        exact hmem (hjk ▸ h2 j hj)
      have h2' : ∀ j ∈ jobs ++ [(⟨jk, ti, de⟩ : JobData)], j.jobkey ∈ jk :: seen := by
        intro j hj
        rcases List.mem_append.mp hj with hj | hj
        · exact List.mem_cons_of_mem _ (h2 j hj)
        · simp only [List.mem_singleton] at hj
          subst hj
          exact List.mem_cons_self _ _
      obtain ⟨p1, p2, p3, p4⟩ := ih (jk :: seen) (jobs ++ [(⟨jk, ti, de⟩ : JobData)]) (cnt + 1) h1' h2'
      refine ⟨p1, p2, ?_, ?_⟩
      · intro s hs
        exact p3 s (List.mem_cons_of_mem _ hs)
      · intro j hj
        rcases p4 j hj with hj' | hj'
        · rcases List.mem_append.mp hj' with hj'' | hj''
          · exact Or.inl hj''
          · simp only [List.mem_singleton] at hj''
            subst hj''
            exact Or.inr hmem
        · exact Or.inr (fun hc => hj' (List.mem_cons_of_mem _ hc))

/-- Session-level dedup invariant of the pagination loop: starting from any
seen set and any record list whose keys are unique and contained in it, the
final record keys are unique and contained in the final seen set, the seen
set only grows, and every newly appended record's key was outside the
starting seen set. -/
theorem discoverLoop_inv (getPage : Nat → SerpPage) :
    ∀ (r pageNum : Nat) (seen : List String) (jobs : List JobData),
      (jobs.map JobData.jobkey).Nodup →
      (∀ j ∈ jobs, j.jobkey ∈ seen) →
      (((discoverLoop getPage r pageNum seen jobs).jobs_data.map
          JobData.jobkey).Nodup ∧
        (∀ j ∈ (discoverLoop getPage r pageNum seen jobs).jobs_data,
          j.jobkey ∈ (discoverLoop getPage r pageNum seen jobs).seen) ∧
        (∀ s ∈ seen, s ∈ (discoverLoop getPage r pageNum seen jobs).seen) ∧
        (∀ j ∈ (discoverLoop getPage r pageNum seen jobs).jobs_data,
          j ∈ jobs ∨ j.jobkey ∉ seen)) := by
  intro r
  induction r with
  | zero =>
    intro pageNum seen jobs h1 h2
    exact ⟨h1, h2, fun s hs => hs, fun j hj => Or.inl hj⟩
  | succ r ih =>
    intro pageNum seen jobs h1 h2
    simp only [discoverLoop]
    by_cases hb : (getPage pageNum).blocked
    · simp only [hb, if_true]
      exact ⟨h1, h2, fun s hs => hs, fun j hj => Or.inl hj⟩
    · simp only [hb, if_false]
      obtain ⟨e1, e2, e3, e4⟩ :=
        foldl_processCard_inv (getPage pageNum).cards seen jobs 0 h1 h2
      by_cases hz :
        ((getPage pageNum).cards.foldl processCard (seen, jobs, 0)).2.2 = 0
      · simp only [extract_jobs_by_clicking, hz, if_pos]
        exact ⟨e1, e2, e3, e4⟩
      · simp only [extract_jobs_by_clicking, hz, if_neg, if_false]
        obtain ⟨p1, p2, p3, p4⟩ := ih (pageNum + 1)
          ((getPage pageNum).cards.foldl processCard (seen, jobs, 0)).1
          ((getPage pageNum).cards.foldl processCard (seen, jobs, 0)).2.1
          e1 e2
        refine ⟨p1, p2, fun s hs => p3 s (e3 s hs), ?_⟩
        intro j hj
        rcases p4 j hj with hj' | hj'
        · exact e4 j hj'
        · exact Or.inr (fun hc => hj' (e3 _ hc))

/-!
## Claim C1: discovery-session dedup invariant
-/

/-- C1: within one discovery session (one `discover_jobs` call with a given
seen-key set), the job keys of all appended records are pairwise distinct,
none of them was in the seen set at the start of the session (a card whose
key is missing, empty, or already seen is skipped), and every appended key
is in the session's final seen set. -/
theorem C1_discovery_dedup (getPage : Nat → SerpPage) (seen0 : List String) :
    (((discover_jobs getPage seen0).jobs_data.map JobData.jobkey).Nodup) ∧
      (∀ j ∈ (discover_jobs getPage seen0).jobs_data, j.jobkey ∉ seen0) ∧
      (∀ j ∈ (discover_jobs getPage seen0).jobs_data,
        j.jobkey ∈ (discover_jobs getPage seen0).seen) := by
  obtain ⟨p1, p2, _, p4⟩ := discoverLoop_inv getPage MAX_PAGES 0 seen0 []
    (by simp) (by simp)
  exact ⟨p1,
    fun j hj => (p4 j hj).resolve_left (List.not_mem_nil j),
    fun j hj => p2 j hj⟩

/-- Witness for C1 on a concrete two-page session starting from the seen
set `["old"]`: the unique extracted record's key is fresh. -/
theorem C1_discovery_dedup_witness :
    ((discover_jobs convergeEnv ["old"]).jobs_data.map JobData.jobkey).Nodup ∧
      (⟨"jk1", "Title", "desc"⟩ : JobData).jobkey ∉ (["old"] : List String) := by
  refine ⟨(C1_discovery_dedup convergeEnv ["old"]).1, ?_⟩
  exact (C1_discovery_dedup convergeEnv ["old"]).2.1
    ⟨"jk1", "Title", "desc"⟩ (by decide)

/-- Prepending preserves a known last element. -/
theorem getLast?_cons_of_getLast? {α : Type} (a w : α) (l : List α)
    (h : l.getLast? = some w) : (a :: l).getLast? = some w := by
  cases l with
  | nil => simp at h
  | cons b l =>
    rw [List.getLast?_cons_cons]
    exact h

/-- Trace properties of the pagination loop: every visited page index lies
in `[pageNum, pageNum + fuel)`; the first visit (if any) is `pageNum`;
consecutive visits satisfy `visitStep` (a next page is fetched only after an
unblocked page with at least one new key, and indices are consecutive); a
`converged` stop ends on an unblocked visit with zero new keys; a `blocked`
stop ends on a blocked visit; and the returned records are exactly the
replay of the click-driven extraction over the unblocked visited pages. -/
theorem discoverLoop_visits (getPage : Nat → SerpPage) :
    ∀ (r pageNum : Nat) (seen : List String) (jobs : List JobData),
      (∀ v ∈ (discoverLoop getPage r pageNum seen jobs).visits,
        pageNum ≤ v.idx ∧ v.idx < pageNum + r) ∧
      (∀ b, (discoverLoop getPage r pageNum seen jobs).visits.head? = some b →
        b.idx = pageNum) ∧
      List.Chain' visitStep (discoverLoop getPage r pageNum seen jobs).visits ∧
      ((discoverLoop getPage r pageNum seen jobs).reason = .converged →
        ∃ v, (discoverLoop getPage r pageNum seen jobs).visits.getLast? =
            some v ∧ v.blocked = false ∧ v.newCount = 0) ∧
      ((discoverLoop getPage r pageNum seen jobs).reason = .blocked →
        ∃ v, (discoverLoop getPage r pageNum seen jobs).visits.getLast? =
            some v ∧ v.blocked = true) ∧
      (discoverLoop getPage r pageNum seen jobs).jobs_data =
        (replayPages getPage
          (((discoverLoop getPage r pageNum seen jobs).visits.filter
            (fun v => !v.blocked)).map PageVisit.idx) seen jobs).2 := by
  intro r
  induction r with
  | zero =>
    intro pageNum seen jobs
    refine ⟨?_, ?_, ?_, ?_, ?_, ?_⟩
    · intro v hv
      simp [discoverLoop] at hv
    · intro b hbh
      simp [discoverLoop] at hbh
    · simp [discoverLoop]
    · intro h
      simp [discoverLoop] at h
    · intro h
      simp [discoverLoop] at h
    · rfl
  | succ r ih =>
    intro pageNum seen jobs
    simp only [discoverLoop]
    by_cases hb : (getPage pageNum).blocked = true
    · rw [if_pos hb]
      refine ⟨?_, ?_, ?_, ?_, ?_, ?_⟩
      · intro v hv
        simp only [List.mem_singleton] at hv
        subst hv
        exact ⟨Nat.le_refl _, by dsimp only; omega⟩
      · intro b hbh
        simp only [List.head?_cons, Option.some.injEq] at hbh
        rw [← hbh]
      · simp
      · intro h
        simp at h
      · intro _
        exact ⟨⟨pageNum, true, 0⟩, rfl, rfl⟩
      · simp [replayPages]
    · rw [if_neg hb]
      by_cases hz :
        (extract_jobs_by_clicking seen jobs (getPage pageNum).cards).2.2 = 0
      · rw [if_pos hz]
        refine ⟨?_, ?_, ?_, ?_, ?_, ?_⟩
        · intro v hv
          simp only [List.mem_singleton] at hv
          subst hv
          exact ⟨Nat.le_refl _, by dsimp only; omega⟩
        · intro b hbh
          simp only [List.head?_cons, Option.some.injEq] at hbh
          rw [← hbh]
        · simp
        · intro _
          exact ⟨⟨pageNum, false,
            (extract_jobs_by_clicking seen jobs (getPage pageNum).cards).2.2⟩,
            rfl, rfl, hz⟩
        · intro h
          simp at h
        · simp only [List.filter_cons, Bool.not_false, if_true,
            List.filter_nil, List.map_cons, List.map_nil]
          rfl
      · rw [if_neg hz]
        obtain ⟨a1, a2, a3, a4, a5, a6⟩ := ih (pageNum + 1)
          (extract_jobs_by_clicking seen jobs (getPage pageNum).cards).1
          (extract_jobs_by_clicking seen jobs (getPage pageNum).cards).2.1
        refine ⟨?_, ?_, ?_, ?_, ?_, ?_⟩
        · intro v hv
          simp only [] at hv
          rcases List.mem_cons.mp hv with hv | hv
          · subst hv
            exact ⟨Nat.le_refl _, by dsimp only; omega⟩
          · have := a1 v hv
            exact ⟨by omega, by omega⟩
        · intro b hbh
          simp only [List.head?_cons, Option.some.injEq] at hbh
          rw [← hbh]
        · show List.Chain' visitStep (⟨pageNum, false, _⟩ ::
            (discoverLoop getPage r (pageNum + 1) _ _).visits)
          rw [List.chain'_cons']
          refine ⟨?_, a3⟩
          intro y hy
          exact ⟨rfl, hz, by rw [a2 y hy]⟩
        · intro h
          obtain ⟨v, hv1, hv2, hv3⟩ := a4 h
          exact ⟨v, getLast?_cons_of_getLast? _ v _ hv1, hv2, hv3⟩
        · intro h
          obtain ⟨v, hv1, hv2⟩ := a5 h
          exact ⟨v, getLast?_cons_of_getLast? _ v _ hv1, hv2⟩
        · show (discoverLoop getPage r (pageNum + 1) _ _).jobs_data = _
          rw [a6]
          simp only [List.filter_cons, Bool.not_false, if_true, List.map_cons]
          rfl

/-!
## Claim C3: pagination convergence, ceiling, and partial results
-/

/-- C3: in a discovery session, every fetched page index is below the fixed
ceiling `MAX_PAGES`; a further page is fetched only immediately after an
unblocked page whose extraction found at least one new key (so a page with
zero new keys, or a bot challenge, stops pagination without fetching the
next page); a `converged` stop ends on an unblocked page with zero new keys
and a `blocked` stop on a challenged page; and in every terminal case the
function returns — rather than raising — exactly the candidates accumulated
by the click-driven extraction over the unblocked fetched pages. -/
theorem C3_pagination_bounded_convergence (getPage : Nat → SerpPage)
    (seen0 : List String) :
    (∀ v ∈ (discover_jobs getPage seen0).visits, v.idx < MAX_PAGES) ∧
      List.Chain' visitStep (discover_jobs getPage seen0).visits ∧
      ((discover_jobs getPage seen0).reason = .converged →
        ∃ v, (discover_jobs getPage seen0).visits.getLast? = some v ∧
          v.blocked = false ∧ v.newCount = 0) ∧
      ((discover_jobs getPage seen0).reason = .blocked →
        ∃ v, (discover_jobs getPage seen0).visits.getLast? = some v ∧
          v.blocked = true) ∧
      (discover_jobs getPage seen0).jobs_data =
        (replayPages getPage
          (((discover_jobs getPage seen0).visits.filter
            (fun v => !v.blocked)).map PageVisit.idx) seen0 []).2 := by
  obtain ⟨a1, _, a3, a4, a5, a6⟩ := discoverLoop_visits getPage MAX_PAGES 0 seen0 []
  exact ⟨fun v hv => by have := a1 v hv; omega, a3, a4, a5, a6⟩

/-- Witness for C3 on a concrete mock session (every page repeats the same
single card): discovery fetches pages 0 and 1 and stops by convergence —
never fetching page 2 although the ceiling is 5 — and the stop is reported
on the last, unblocked, zero-new visit. -/
theorem C3_pagination_bounded_convergence_witness :
    (discover_jobs convergeEnv []).reason = .converged ∧
      (discover_jobs convergeEnv []).visits =
        [⟨0, false, 1⟩, ⟨1, false, 0⟩] ∧
      (⟨1, false, 0⟩ : PageVisit).idx < MAX_PAGES ∧
      (∃ v, (discover_jobs convergeEnv []).visits.getLast? = some v ∧
        v.blocked = false ∧ v.newCount = 0) := by
  refine ⟨rfl, rfl, ?_, ?_⟩
  · exact (C3_pagination_bounded_convergence convergeEnv []).1
      ⟨1, false, 0⟩ (by decide)
  · exact (C3_pagination_bounded_convergence convergeEnv []).2.2.1 rfl
